import Mathlib

/-!
Verification development for the statistical analysis core of an Excel
analysis service. The JavaScript source (a `DataAnalyzer` static class, a
predictions route module and a `WhatIfAnalysis` static class) is embedded
shallowly:

* JavaScript numbers are idealised as exact extended rationals with a `nan`
  element (`JNum` below). The IEEE-754 special-value rules that matter to the
  source (0/0 = NaN, nonzero/0 = ±infinity, NaN propagation, infinity minus
  infinity = NaN, infinity times zero = NaN, comparisons with NaN false) are
  reproduced; rounding of finite arithmetic and the sign of zero are not
  modelled (finite arithmetic is exact here, and zero is unsigned).
* `Math.sqrt` is modelled by `ratSqrt`, a rational square-root approximation
  that is exact on perfect squares and preserves the sign/NaN structure
  (zero maps to zero, positives to positives, negatives to NaN); the
  theorems below depend only on that structure, never on the value of the
  approximation at a non-square positive input.
* Spreadsheet cells reaching the analyzer are JSON values: finite numbers,
  strings, or null/undefined (`Cell` below).
* JavaScript objects used as string-keyed result maps are modelled as
  association lists keyed by column index, in insertion order.
* A function that can throw is modelled with `Except`; the unbounded mutual
  recursion of `performDeepAnalysis` and `generateRecommendations` is
  modelled with an explicit fuel parameter, `none` meaning that the given
  recursion depth was exhausted.
-/

namespace ExcelAI

/-- Kernel-reducible square root on naturals: the largest `k ≤ n` with
`k * k ≤ n`, computed by scanning `0..n`. Extensionally this is `Nat.sqrt`,
but it avoids well-founded recursion so that concrete witnesses reduce. -/
def natSqrtL (n : ℕ) : ℕ := ((List.range (n + 1)).filter (fun k => k * k ≤ n)).foldl max 0

/-- Model of `Math.sqrt` on finite values, mirroring the shape of
`Rat.sqrt` (square root of numerator over square root of denominator) but
with the kernel-reducible `natSqrtL`. Exact on perfect squares; for other
nonnegative inputs it is some nonnegative rational approximation, which is
all the embedded claims depend on. -/
def ratSqrt (q : ℚ) : ℚ := mkRat (natSqrtL q.num.toNat) (natSqrtL q.den)

/-- JavaScript number idealised as an exact rational extended with NaN and
the two infinities. -/
inductive JNum where
  | num (q : ℚ)
  | nan
  | inf
  | ninf
deriving DecidableEq

namespace JNum

/-- Unary minus. -/
def jneg : JNum → JNum
  | num q => num (-q)
  | nan => nan
  | inf => ninf
  | ninf => inf

/-- IEEE addition on the extended rationals: NaN propagates, opposite
infinities give NaN. -/
def jadd : JNum → JNum → JNum
  | num a, num b => num (a + b)
  | nan, _ => nan
  | _, nan => nan
  | inf, ninf => nan
  | ninf, inf => nan
  | inf, _ => inf
  | _, inf => inf
  | ninf, _ => ninf
  | _, ninf => ninf

/-- IEEE subtraction, as addition of the negation. -/
def jsub (a b : JNum) : JNum := jadd a (jneg b)

/-- IEEE multiplication: NaN propagates, infinity times zero is NaN. -/
def jmul : JNum → JNum → JNum
  | num a, num b => num (a * b)
  | nan, _ => nan
  | _, nan => nan
  | inf, inf => inf
  | inf, ninf => ninf
  | ninf, inf => ninf
  | ninf, ninf => inf
  | inf, num b => if b = 0 then nan else if 0 < b then inf else ninf
  | num a, inf => if a = 0 then nan else if 0 < a then inf else ninf
  | ninf, num b => if b = 0 then nan else if 0 < b then ninf else inf
  | num a, ninf => if a = 0 then nan else if 0 < a then ninf else inf

/-- IEEE division with an unsigned zero: 0/0 is NaN, a nonzero finite value
divided by zero is a signed infinity (the zero is treated as +0), a finite
value divided by infinity is 0, infinity over infinity is NaN. -/
def jdiv : JNum → JNum → JNum
  | num a, num b =>
      if b = 0 then (if a = 0 then nan else if 0 < a then inf else ninf)
      else num (a / b)
  | nan, _ => nan
  | _, nan => nan
  | inf, num b => if 0 ≤ b then inf else ninf
  | ninf, num b => if 0 ≤ b then ninf else inf
  | num _, inf => num 0
  | num _, ninf => num 0
  | inf, inf => nan
  | inf, ninf => nan
  | ninf, inf => nan
  | ninf, ninf => nan

/-- `Math.pow` with a natural exponent, as iterated IEEE multiplication. -/
def jpow (x : JNum) : ℕ → JNum
  | 0 => num 1
  | k + 1 => jmul x (jpow x k)

/-- `Math.sqrt`: NaN on negative or NaN input, infinity on +infinity. -/
def jsqrt : JNum → JNum
  | num q => if q < 0 then nan else num (ratSqrt q)
  | nan => nan
  | inf => inf
  | ninf => nan

/-- `Math.abs`. -/
def jabs : JNum → JNum
  | num q => num |q|
  | nan => nan
  | inf => inf
  | ninf => inf

/-- IEEE strict less-than as a Boolean: false whenever either side is NaN. -/
def jlt : JNum → JNum → Bool
  | num a, num b => a < b
  | nan, _ => false
  | _, nan => false
  | inf, _ => false
  | _, ninf => false
  | ninf, _ => true
  | num _, inf => true

/-- IEEE less-or-equal as a Boolean: false whenever either side is NaN. -/
def jle : JNum → JNum → Bool
  | num a, num b => a ≤ b
  | nan, _ => false
  | _, nan => false
  | ninf, _ => true
  | _, inf => true
  | inf, num _ => false
  | num _, ninf => false
  | inf, ninf => false

end JNum

open JNum

/-- `arr.reduce((a, b) => a + b, 0)` over already-boxed JS numbers. -/
def jsum (l : List JNum) : JNum := l.foldl jadd (num 0)

/-- Exact sum of a list of finite values, the model of
`arr.reduce((a, b) => a + b, 0)` on a filtered numeric column (finite
addition is exact in this idealisation). -/
def sumQ (l : List ℚ) : ℚ := l.foldl (· + ·) 0

/-- A spreadsheet cell as received from the JSON request body: a finite
number, a string, or null/undefined. -/
inductive Cell where
  | num (q : ℚ)
  | str (s : String)
  | null
deriving DecidableEq

/-- The `typeof cell === 'number'` probe. -/
def Cell.isNum : Cell → Bool
  | Cell.num _ => true
  | _ => false

/-- The `typeof cell === 'string'` probe. -/
def Cell.isStr : Cell → Bool
  | Cell.str _ => true
  | _ => false

/-- The missing-value probe `cell === null || cell === undefined || cell === ''`. -/
def Cell.isMissing : Cell → Bool
  | Cell.null => true
  | Cell.str s => s == ""
  | _ => false

/-- The `selectedData` object handed to the analyzer; only its `values`
grid (a list of rows of cells) is consumed by the embedded routines. -/
structure SelectedData where
  values : List (List Cell)
deriving DecidableEq

namespace DataAnalyzer

open JNum

/-- `DataAnalyzer.sum(data)`: `data.reduce((a, b) => a + b, 0)`. -/
def sum (data : List ℚ) : ℚ := sumQ data

/-- `DataAnalyzer.mean(data)`: `this.sum(data) / data.length` (NaN on an
empty list, by 0/0). -/
def mean (data : List ℚ) : JNum := jdiv (num (sum data)) (num data.length)

/-- The ascending JS sort `[...data].sort((a, b) => a - b)`. -/
def sortQ (data : List ℚ) : List ℚ := data.mergeSort (fun a b => a ≤ b)

/-- `DataAnalyzer.median(data)`: middle element of the sorted copy, or the
mean of the two middle elements for even length (NaN for the empty list,
where the out-of-range accesses yield undefined arithmetic). -/
def median (data : List ℚ) : JNum :=
  let sorted := sortQ data
  let mid := sorted.length / 2
  if sorted.length % 2 ≠ 0 then
    match sorted.get? mid with
    | some v => num v
    | Option.none => nan
  else
    match sorted.get? (mid - 1), sorted.get? mid with
    | some a, some b => num ((a + b) / 2)
    | _, _ => nan

/-- `DataAnalyzer.mode(data)`: the values attaining the maximal frequency,
in first-occurrence order (the frequency object is built by insertion; the
JS reordering of integer-like keys is immaterial to every claim below). -/
def mode (data : List ℚ) : List ℚ :=
  let keys := data.dedup
  let maxFreq := (keys.map (fun k => data.count k)).foldl max 0
  keys.filter (fun k => data.count k = maxFreq)

/-- `DataAnalyzer.variance(data)`: sum of squared deviations from the mean
divided by `data.length - 1` (Bessel), with the divisions carried out in
IEEE style: NaN for a singleton (0/0), 0 for the empty list (0/(-1)). -/
def variance (data : List ℚ) : JNum :=
  let m := mean data
  jdiv (jsum (data.map (fun x => jpow (jsub (num x) m) 2)))
    (num ((data.length : ℚ) - 1))

/-- `DataAnalyzer.standardDeviation(data)`: square root of the variance. -/
def standardDeviation (data : List ℚ) : JNum := jsqrt (variance data)

/-- `DataAnalyzer.skewness(data)`: bias-corrected third standardised
moment, `(n / ((n-1)(n-2))) * Σ ((x - mean)/stdDev)^3`. -/
def skewness (data : List ℚ) : JNum :=
  let m := mean data
  let stdDev := standardDeviation data
  let n : ℚ := data.length
  jmul (jdiv (num n) (num ((n - 1) * (n - 2))))
    (jsum (data.map (fun x => jpow (jdiv (jsub (num x) m) stdDev) 3)))

/-- `DataAnalyzer.kurtosis(data)`: bias-corrected excess kurtosis,
`(n(n+1)/((n-1)(n-2)(n-3))) * Σ ((x - mean)/stdDev)^4 - 3(n-1)^2/((n-2)(n-3))`. -/
def kurtosis (data : List ℚ) : JNum :=
  let m := mean data
  let stdDev := standardDeviation data
  let n : ℚ := data.length
  jsub
    (jmul (jdiv (num (n * (n + 1))) (num ((n - 1) * (n - 2) * (n - 3))))
      (jsum (data.map (fun x => jpow (jdiv (jsub (num x) m) stdDev) 4))))
    (jdiv (num (3 * (n - 1) ^ 2)) (num ((n - 2) * (n - 3))))

/-- `DataAnalyzer.percentile(sortedData, percentile)`: linear interpolation
between order statistics at index `p/100 * (n-1)`; an exact index reads the
element directly. Out-of-range accesses (empty list, or a percentile
outside 0..100) behave like the undefined-element arithmetic of the
source, i.e. NaN. -/
def percentile (sortedData : List ℚ) (p : ℚ) : JNum :=
  let index : ℚ := p / 100 * ((sortedData.length : ℚ) - 1)
  if index < 0 then nan
  else if index.den = 1 then
    match sortedData.get? index.num.toNat with
    | some v => num v
    | Option.none => nan
  else
    match sortedData.get? (⌊index⌋).toNat, sortedData.get? (⌈index⌉).toNat with
    | some lower, some upper => num (lower + (upper - lower) * (index - ⌊index⌋))
    | _, _ => nan

/-- `DataAnalyzer.quartiles(data)`: the 25th, 50th and 75th percentiles of
the sorted copy. -/
def quartiles (data : List ℚ) : List JNum :=
  let sorted := sortQ data
  [percentile sorted 25, percentile sorted 50, percentile sorted 75]

/-- The percentile map returned by `DataAnalyzer.percentiles(data)`. -/
structure PercentileMap where
  p5 : JNum
  p10 : JNum
  p25 : JNum
  p50 : JNum
  p75 : JNum
  p90 : JNum
  p95 : JNum
deriving DecidableEq

/-- `DataAnalyzer.percentiles(data)`. -/
def percentiles (data : List ℚ) : PercentileMap :=
  let sorted := sortQ data
  { p5 := percentile sorted 5
    p10 := percentile sorted 10
    p25 := percentile sorted 25
    p50 := percentile sorted 50
    p75 := percentile sorted 75
    p90 := percentile sorted 90
    p95 := percentile sorted 95 }

/-- `Math.min(...data)`: +infinity on an empty spread. -/
def minJ (data : List ℚ) : JNum :=
  match data with
  | [] => inf
  | x :: xs => num (xs.foldl min x)

/-- `Math.max(...data)`: -infinity on an empty spread. -/
def maxJ (data : List ℚ) : JNum :=
  match data with
  | [] => ninf
  | x :: xs => num (xs.foldl max x)

/-- The denominator expression of `DataAnalyzer.pearsonCorrelation`:
`Math.sqrt((n·Σx² - (Σx)²)(n·Σy² - (Σy)²))` over the first
`n = min(len1, len2)` paired elements. -/
def pearsonDenominator (x y : List ℚ) : JNum :=
  let n := min x.length y.length
  let xs := x.take n
  let ys := y.take n
  let sumX := sum xs
  let sumY := sum ys
  let sumX2 := sum (xs.map (fun v => v * v))
  let sumY2 := sum (ys.map (fun v => v * v))
  jsqrt (num (((n : ℚ) * sumX2 - sumX * sumX) * ((n : ℚ) * sumY2 - sumY * sumY)))

/-- `DataAnalyzer.pearsonCorrelation(x, y)`: 0 when fewer than two pairs
exist, 0 when the denominator is exactly 0, otherwise the usual quotient.
The two inputs are paired elementwise up to `min(len1, len2)`. -/
def pearsonCorrelation (x y : List ℚ) : JNum :=
  let n := min x.length y.length
  if n < 2 then num 0
  else
    let xs := x.take n
    let ys := y.take n
    let sumX := sum xs
    let sumY := sum ys
    let sumXY := sum (List.zipWith (fun a b => a * b) xs ys)
    let numerator : ℚ := (n : ℚ) * sumXY - sumX * sumY
    let denominator := pearsonDenominator x y
    if denominator = num 0 then num 0 else jdiv (num numerator) denominator

/-- `DataAnalyzer.detectHeaders(values)`: false with fewer than two rows;
otherwise row 0 must be all strings and row 1 must contain a number. -/
def detectHeaders (values : List (List Cell)) : Bool :=
  match values with
  | firstRow :: secondRow :: _ => firstRow.all Cell.isStr && secondRow.any Cell.isNum
  | _ => false

/-- `DataAnalyzer.analyzeDataTypes(values)`: the set of cell-type tags in
insertion order (a JS `Set` preserves insertion order). -/
def analyzeDataTypes (values : List (List Cell)) : List String :=
  let tagOf : Cell → String := fun c =>
    match c with
    | Cell.num _ => "number"
    | Cell.str _ => "text"
    | Cell.null => "empty"
  let add : List String → String → List String := fun acc t =>
    if acc.contains t then acc else acc ++ [t]
  values.foldl (fun acc row => row.foldl (fun acc c => add acc (tagOf c)) acc) []

/-- `DataAnalyzer.getNumericColumns(values)`: empty with fewer than two
rows; otherwise the indices of the numeric cells of row 1 (the single
probe row). -/
def getNumericColumns (values : List (List Cell)) : List ℕ :=
  match values with
  | _ :: sampleRow :: _ => (sampleRow.enum.filter (fun p => p.2.isNum)).map (fun p => p.1)
  | _ => []

/-- `DataAnalyzer.getNumericColumnCount(values)`. -/
def getNumericColumnCount (values : List (List Cell)) : ℕ :=
  (getNumericColumns values).length

/-- `DataAnalyzer.getTextColumnCount(values)`: 0 with fewer than two rows;
otherwise the number of string cells of row 1. -/
def getTextColumnCount (values : List (List Cell)) : ℕ :=
  match values with
  | _ :: sampleRow :: _ => (sampleRow.filter Cell.isStr).length
  | _ => 0

/-- `DataAnalyzer.countMissingValues(values)`: cells that are null,
undefined or the empty string. -/
def countMissingValues (values : List (List Cell)) : ℕ :=
  values.foldl (fun count row => count + (row.filter Cell.isMissing).length) 0

/-- `DataAnalyzer.findDuplicateRows(values)`: row count minus the number of
distinct serialized rows (`JSON.stringify` is injective on these cells). -/
def findDuplicateRows (values : List (List Cell)) : ℕ :=
  values.length - values.dedup.length

/-- The numeric sample of one column:
`values.slice(1).map(row => row[colIndex]).filter(typeof number)`.
A missing entry of a short row (undefined) is filtered out exactly like a
non-numeric cell. -/
def numericColumnData (values : List (List Cell)) (colIndex : ℕ) : List ℚ :=
  (values.drop 1).filterMap (fun row =>
    match row.get? colIndex with
    | some (Cell.num q) => some q
    | _ => Option.none)

/-- The per-column record of `DataAnalyzer.calculateStatistics`. -/
structure StatRec where
  count : ℕ
  sum : ℚ
  mean : JNum
  median : JNum
  mode : List ℚ
  min : JNum
  max : JNum
  range : JNum
  variance : JNum
  standardDeviation : JNum
  skewness : JNum
  kurtosis : JNum
  quartiles : List JNum
  percentiles : PercentileMap
deriving DecidableEq

/-- The record body built for one nonempty numeric column sample. -/
def statRec (columnData : List ℚ) : StatRec :=
  { count := columnData.length
    sum := sum columnData
    mean := mean columnData
    median := median columnData
    mode := mode columnData
    min := minJ columnData
    max := maxJ columnData
    range := jsub (maxJ columnData) (minJ columnData)
    variance := variance columnData
    standardDeviation := standardDeviation columnData
    skewness := skewness columnData
    kurtosis := kurtosis columnData
    quartiles := quartiles columnData
    percentiles := percentiles columnData }

/-- `DataAnalyzer.calculateStatistics(selectedData)`: one record per
numeric column whose filtered sample is nonempty, keyed by column index
(the source keys the object by the string `column_<index>`). -/
def calculateStatistics (d : SelectedData) : List (ℕ × StatRec) :=
  (getNumericColumns d.values).filterMap (fun colIndex =>
    let columnData := numericColumnData d.values colIndex
    if columnData.length > 0 then some (colIndex, statRec columnData) else Option.none)

/-- `DataAnalyzer.assessConsistency(values)`: fixed placeholder score. -/
def assessConsistency (_values : List (List Cell)) : JNum := num (85 / 100)

/-- `DataAnalyzer.assessAccuracy(values)`: fixed placeholder score. -/
def assessAccuracy (_values : List (List Cell)) : JNum := num (90 / 100)

/-- `DataAnalyzer.findConsistencyIssues(values)`: fixed placeholder list. -/
def findConsistencyIssues (_values : List (List Cell)) : List String :=
  ["Format inconsistencies", "Unit variations"]

/-- `DataAnalyzer.findAnomalies(values)`: fixed placeholder list. -/
def findAnomalies (_values : List (List Cell)) : List String :=
  ["Unusual data patterns", "Potential data entry errors"]

/-- `DataAnalyzer.getQualityGrade(score)`: letter grade by thresholds; a
NaN score fails every comparison and grades F. -/
def getQualityGrade (score : JNum) : String :=
  if jle (num (90 / 100)) score then ("A")
  else if jle (num (80 / 100)) score then ("B")
  else if jle (num (70 / 100)) score then ("C")
  else if jle (num (60 / 100)) score then ("D")
  else ("F")

/-- `DataAnalyzer.getQualityRecommendations(score)`. -/
def getQualityRecommendations (score : JNum) : List String :=
  if jle (num (90 / 100)) score then
    ["Excellent data quality - maintain current standards"]
  else if jle (num (80 / 100)) score then
    ["Good data quality - minor improvements needed"]
  else if jle (num (70 / 100)) score then
    ["Moderate data quality - focus on key issues"]
  else if jle (num (60 / 100)) score then
    ["Poor data quality - significant improvements required"]
  else
    ["Very poor data quality - major data cleansing needed"]

/-- The `completeness` part of the quality record. -/
structure CompletenessRec where
  score : JNum
  missingValues : ℕ
  totalCells : ℕ
deriving DecidableEq

/-- The `uniqueness` part of the quality record. -/
structure UniquenessRec where
  score : JNum
  duplicateRows : ℕ
  totalRows : ℕ
deriving DecidableEq

/-- The `consistency` part of the quality record. -/
structure ConsistencyRec where
  score : JNum
  issues : List String
deriving DecidableEq

/-- The `accuracy` part of the quality record. -/
structure AccuracyRec where
  score : JNum
  anomalies : List String
deriving DecidableEq

/-- The `overall` part of the quality record. -/
structure OverallRec where
  score : JNum
  grade : String
  recommendations : List String
deriving DecidableEq

/-- The full result of `DataAnalyzer.assessDataQuality`. -/
structure QualityRec where
  completeness : CompletenessRec
  uniqueness : UniquenessRec
  consistency : ConsistencyRec
  accuracy : AccuracyRec
  overall : OverallRec
deriving DecidableEq

/-- `DataAnalyzer.assessDataQuality(selectedData)`: completeness and
uniqueness as `1 - missing/total` and `1 - duplicates/rows` with the
divisions carried out IEEE-style (so an empty dataset makes them NaN via
0/0 - there is no guard in the source), fixed consistency and accuracy
placeholders, and their arithmetic mean as overall score. -/
def assessDataQuality (d : SelectedData) : QualityRec :=
  let values := d.values
  let totalCells : ℕ := values.length * ((values.head?.map List.length).getD 0)
  let missingCount := countMissingValues values
  let duplicateRows := findDuplicateRows values
  let completeness := jsub (num 1) (jdiv (num missingCount) (num totalCells))
  let uniqueness := jsub (num 1) (jdiv (num duplicateRows) (num values.length))
  let consistency := assessConsistency values
  let accuracy := assessAccuracy values
  let overallScore :=
    jdiv (jadd (jadd (jadd completeness uniqueness) consistency) accuracy) (num 4)
  { completeness :=
      { score := completeness, missingValues := missingCount, totalCells := totalCells }
    uniqueness :=
      { score := uniqueness, duplicateRows := duplicateRows, totalRows := values.length }
    consistency := { score := consistency, issues := findConsistencyIssues values }
    accuracy := { score := accuracy, anomalies := findAnomalies values }
    overall :=
      { score := overallScore
        grade := getQualityGrade overallScore
        recommendations := getQualityRecommendations overallScore } }

/-- The constant result of the placeholder `DataAnalyzer.detectSeasonality`. -/
structure SeasonalityRec where
  detected : Bool
  period : Option ℚ
  strength : ℚ
deriving DecidableEq

/-- The constant result of the placeholder `DataAnalyzer.detectCycles`. -/
structure CyclesRec where
  detected : Bool
  cycles : List ℚ
deriving DecidableEq

/-- The constant result of the placeholder `DataAnalyzer.analyzeGrowthPatterns`. -/
structure GrowthRec where
  pattern : String
  confidence : ℚ
deriving DecidableEq

/-- The constant result of the placeholder `DataAnalyzer.analyzeDistributions`. -/
structure DistributionsRec where
  normal : ℚ
  uniform : ℚ
  exponential : ℚ
deriving DecidableEq

/-- The constant result of the placeholder `DataAnalyzer.findRelationships`. -/
structure RelationshipsRec where
  linear : ℚ
  polynomial : ℚ
  logarithmic : ℚ
deriving DecidableEq

/-- The result of `DataAnalyzer.detectPatterns`. -/
structure PatternsRec where
  seasonality : SeasonalityRec
  cycles : CyclesRec
  growth : GrowthRec
  distributions : DistributionsRec
  relationships : RelationshipsRec
deriving DecidableEq

/-- `DataAnalyzer.detectPatterns(selectedData)`: all placeholder constants. -/
def detectPatterns (_d : SelectedData) : PatternsRec :=
  { seasonality := { detected := false, period := Option.none, strength := 0 }
    cycles := { detected := false, cycles := [] }
    growth := { pattern := "linear", confidence := 1 / 2 }
    distributions := { normal := 6 / 10, uniform := 2 / 10, exponential := 2 / 10 }
    relationships := { linear := 7 / 10, polynomial := 2 / 10, logarithmic := 1 / 10 } }

/-- `DataAnalyzer.getCorrelationStrength(correlation)`. -/
def getCorrelationStrength (correlation : JNum) : String :=
  let a := jabs correlation
  if jle (num (9 / 10)) a then ("very strong")
  else if jle (num (7 / 10)) a then ("strong")
  else if jle (num (5 / 10)) a then ("moderate")
  else if jle (num (3 / 10)) a then ("weak")
  else ("very weak")

/-- `DataAnalyzer.interpretCorrelation(correlation)`. A NaN coefficient
falls through every comparison (and the strict `=== 0`) to the last arm,
exactly as in the source. -/
def interpretCorrelation (correlation : JNum) : String :=
  if jlt (num (7 / 10)) correlation then ("Strong positive relationship")
  else if jlt (num (3 / 10)) correlation then ("Moderate positive relationship")
  else if jlt (num 0) correlation then ("Weak positive relationship")
  else if correlation = num 0 then ("No linear relationship")
  else if jlt (num (-3 / 10)) correlation then ("Weak negative relationship")
  else if jlt (num (-7 / 10)) correlation then ("Moderate negative relationship")
  else ("Strong negative relationship")

/-- One entry of the correlations map. -/
structure CorrelationRec where
  coefficient : JNum
  strength : String
  interpretation : String
deriving DecidableEq

/-- The ordered pairs visited by the two nested loops
`for i ...; for j = i+1 ...` over the numeric column list. -/
def columnPairs : List ℕ → List (ℕ × ℕ)
  | [] => []
  | c :: rest => rest.map (fun c2 => (c, c2)) ++ columnPairs rest

/-- `DataAnalyzer.calculateCorrelations(selectedData)`: for each ordered
pair of numeric columns whose filtered samples both have length > 1, the
Pearson coefficient with its strength label and interpretation, keyed by
the column-index pair (the source keys by `col_<i>_col_<j>`). -/
def calculateCorrelations (d : SelectedData) : List ((ℕ × ℕ) × CorrelationRec) :=
  (columnPairs (getNumericColumns d.values)).filterMap (fun p =>
    let data1 := numericColumnData d.values p.1
    let data2 := numericColumnData d.values p.2
    if data1.length > 1 ∧ data2.length > 1 then
      let correlation := pearsonCorrelation data1 data2
      some (p, { coefficient := correlation
                 strength := getCorrelationStrength correlation
                 interpretation := interpretCorrelation correlation })
    else Option.none)

/-- `DataAnalyzer.assessOutlierImpact(outliers, allData)`. -/
def assessOutlierImpact (outliers allData : List ℚ) : String :=
  let impactScore : ℚ := (outliers.length : ℚ) / (allData.length : ℚ)
  if 1 / 10 < impactScore then ("high")
  else if 5 / 100 < impactScore then ("medium")
  else ("low")

/-- The `mild` / `extreme` half of an outlier record. -/
structure OutlierSideRec where
  count : ℤ
  values : List ℚ
deriving DecidableEq

/-- The fence pair of an outlier record. -/
structure BoundsRec where
  lower : JNum
  upper : JNum
deriving DecidableEq

/-- One entry of the outliers map. -/
structure OutlierRec where
  mild : OutlierSideRec
  extreme : OutlierSideRec
  bounds : BoundsRec
  percentage : ℚ
  impact : String
deriving DecidableEq

/-- The record body built by `DataAnalyzer.detectOutliers` for one column
sample with more than three values: 1.5·IQR fences for the flagged set,
3·IQR fences for the extreme set, mild = flagged minus extreme. -/
def outlierRec (columnData : List ℚ) : OutlierRec :=
  let q1 := (quartiles columnData).getD 0 nan
  let q3 := (quartiles columnData).getD 2 nan
  let iqr := jsub q3 q1
  let lowerBound := jsub q1 (jmul (num (15 / 10)) iqr)
  let upperBound := jadd q3 (jmul (num (15 / 10)) iqr)
  let outlierValues := columnData.filter (fun v =>
    jlt (num v) lowerBound || jlt upperBound (num v))
  let extremeOutliers := columnData.filter (fun v =>
    jlt (num v) (jsub q1 (jmul (num 3) iqr)) || jlt (jadd q3 (jmul (num 3) iqr)) (num v))
  { mild :=
      { count := (outlierValues.length : ℤ) - (extremeOutliers.length : ℤ)
        values := outlierValues.filter (fun v => !(extremeOutliers.contains v)) }
    extreme := { count := extremeOutliers.length, values := extremeOutliers }
    bounds := { lower := lowerBound, upper := upperBound }
    percentage := (outlierValues.length : ℚ) / (columnData.length : ℚ) * 100
    impact := assessOutlierImpact outlierValues columnData }

/-- `DataAnalyzer.detectOutliers(selectedData)`: one record per numeric
column whose filtered sample has more than three values, keyed by column
index (the source keys by `column_<index>`). -/
def detectOutliers (d : SelectedData) : List (ℕ × OutlierRec) :=
  (getNumericColumns d.values).filterMap (fun colIndex =>
    let columnData := numericColumnData d.values colIndex
    if columnData.length > 3 then some (colIndex, outlierRec columnData) else Option.none)

/-- The `linear` part of a trend record. -/
structure LinearTrendRec where
  slope : JNum
  intercept : JNum
  direction : String
  strength : JNum
  description : String
deriving DecidableEq

/-- `DataAnalyzer.calculateLinearTrend(data)`: ordinary least squares over
the index positions `0..n-1`, with the direction deadband at ±0.01 and a
derived description string. -/
def calculateLinearTrend (data : List ℚ) : LinearTrendRec :=
  let n := data.length
  let x := (List.range n).map (fun i : ℕ => (i : ℚ))
  let y := data
  let sumX := sum x
  let sumY := sum y
  let sumXY := sum (List.zipWith (fun a b => a * b) x y)
  let sumX2 := sum (x.map (fun xi => xi * xi))
  let slope := jdiv (num ((n : ℚ) * sumXY - sumX * sumY))
    (num ((n : ℚ) * sumX2 - sumX * sumX))
  let intercept := jdiv (jsub (num sumY) (jmul slope (num sumX))) (num (n : ℚ))
  let direction :=
    if jlt (num (1 / 100)) slope then ("increasing")
    else if jlt slope (num (-1 / 100)) then ("decreasing")
    else ("stable")
  let strength := jabs slope
  { slope := slope
    intercept := intercept
    direction := direction
    strength := strength
    description := direction ++ " trend with " ++
      (if jlt (num (1 / 10)) strength then ("strong")
       else if jlt (num (5 / 100)) strength then ("moderate")
       else ("weak")) ++ " strength" }

/-- `DataAnalyzer.calculateMovingAverage(data, period)`: the means of the
sliding windows `data.slice(i - period + 1, i + 1)` for
`i = period-1 .. n-1`. -/
def calculateMovingAverage (data : List ℚ) (period : ℕ) : List JNum :=
  ((List.range data.length).drop (period - 1)).map (fun i =>
    mean ((data.drop (i + 1 - period)).take period))

/-- The constant result of the placeholder
`DataAnalyzer.extractSeasonalComponent`. -/
structure SeasonalComponentRec where
  detected : Bool
  component : List ℚ
deriving DecidableEq

/-- `DataAnalyzer.extractSeasonalComponent(data)`. -/
def extractSeasonalComponent (_data : List ℚ) : SeasonalComponentRec :=
  { detected := false, component := [] }

/-- The period-over-period percentage returns of
`DataAnalyzer.calculateVolatility`: `(data[i] - data[i-1]) / data[i-1]`,
with zero-denominator periods skipped. -/
def returnsList (data : List ℚ) : List ℚ :=
  (List.zip data (data.drop 1)).filterMap (fun p =>
    if p.1 ≠ 0 then some ((p.2 - p.1) / p.1) else Option.none)

/-- `DataAnalyzer.calculateVolatility(data)`: 0 for fewer than two points,
otherwise the sample standard deviation of the percentage returns. -/
def calculateVolatility (data : List ℚ) : JNum :=
  if data.length < 2 then num 0
  else standardDeviation (returnsList data)

/-- The JS `Array.prototype.slice(start, stop)` with possibly negative
arguments, clamped to the array bounds. -/
def jsSlice (l : List ℚ) (start stop : ℤ) : List ℚ :=
  let n : ℤ := l.length
  let s := (if start < 0 then max (n + start) 0 else min start n).toNat
  let e := (if stop < 0 then max (n + stop) 0 else min stop n).toNat
  (l.drop s).take (e - s)

/-- `DataAnalyzer.calculateMomentum(data, period = 3)`: 0 when
`n < period + 1`; otherwise the mean of `data.slice(-period)` minus the
mean of `data.slice(-period*2, -period)` (whose window is truncated at the
start of the array when `n < 2*period`). -/
def calculateMomentum (data : List ℚ) (period : ℕ) : JNum :=
  if data.length < period + 1 then num 0
  else
    let recent := jsSlice data (-(period : ℤ)) (data.length : ℤ)
    let earlier := jsSlice data (-(2 * period : ℤ)) (-(period : ℤ))
    jsub (mean recent) (mean earlier)

/-- One entry of the trends map. -/
structure TrendRec where
  linear : LinearTrendRec
  movingAverage : List JNum
  seasonal : SeasonalComponentRec
  volatility : JNum
  momentum : JNum
deriving DecidableEq

/-- `DataAnalyzer.analyzeTrends(selectedData)`: one record per numeric
column whose filtered sample has more than two values, keyed by column
index (the source keys by `column_<index>`). -/
def analyzeTrends (d : SelectedData) : List (ℕ × TrendRec) :=
  (getNumericColumns d.values).filterMap (fun colIndex =>
    let columnData := numericColumnData d.values colIndex
    if columnData.length > 2 then
      some (colIndex,
        { linear := calculateLinearTrend columnData
          movingAverage := calculateMovingAverage columnData 3
          seasonal := extractSeasonalComponent columnData
          volatility := calculateVolatility columnData
          momentum := calculateMomentum columnData 3 })
    else Option.none)

/-- The result of `DataAnalyzer.getBasicStats`. -/
structure BasicStatsRec where
  hasHeaders : Bool
  dataTypes : List String
  numericColumns : ℕ
  textColumns : ℕ
  missingValues : ℕ
deriving DecidableEq

/-- `DataAnalyzer.getBasicStats(selectedData)`. -/
def getBasicStats (d : SelectedData) : BasicStatsRec :=
  { hasHeaders := detectHeaders d.values
    dataTypes := analyzeDataTypes d.values
    numericColumns := getNumericColumnCount d.values
    textColumns := getTextColumnCount d.values
    missingValues := countMissingValues d.values }

/-- One recommendation pushed by `DataAnalyzer.generateRecommendations`. -/
structure Recommendation where
  category : String
  priority : String
  message : String
  actions : List String
deriving DecidableEq

/-- The nonnegative half of `Number.prototype.toFixed(1)`. -/
def toFixed1Pos (q : ℚ) : String :=
  let n : ℤ := round (q * 10)
  toString (n / 10) ++ "." ++ toString (n % 10)

/-- `Number.prototype.toFixed(1)` idealised over exact rationals. -/
def toFixed1 (q : ℚ) : String :=
  if q < 0 then "-" ++ toFixed1Pos (-q) else toFixed1Pos q

/-- The map key `column_<index>` used in recommendation messages. -/
def columnKey (i : ℕ) : String := "column_" ++ toString i

/-- The full report assembled by `DataAnalyzer.performDeepAnalysis`. -/
structure AnalysisRec where
  basicStats : BasicStatsRec
  statisticalSummary : List (ℕ × StatRec)
  dataQuality : QualityRec
  patterns : PatternsRec
  correlations : List ((ℕ × ℕ) × CorrelationRec)
  outliers : List (ℕ × OutlierRec)
  trends : List (ℕ × TrendRec)
  recommendations : List Recommendation
deriving DecidableEq

/-- The threshold-testing body of `DataAnalyzer.generateRecommendations`
applied to an already-computed analysis: a data-quality recommendation
when the overall score is below 0.8, one per correlation with |r| > 0.7,
one per outlier record with more than 5% flagged, and one per trend with
|slope| > 0.1, in the push order of the source. -/
def recommendationsFrom (analysis : AnalysisRec) : List Recommendation :=
  (if jlt analysis.dataQuality.overall.score (num (8 / 10)) then
    [{ category := "Data Quality"
       priority := "high"
       message := "Improve data quality by addressing missing values and inconsistencies"
       actions := ["Use IFERROR() functions to handle missing data",
                   "Implement data validation rules",
                   "Create data cleansing formulas"] }]
   else []) ++
  analysis.correlations.filterMap (fun p =>
    if jlt (num (7 / 10)) (jabs p.2.coefficient) then
      some { category := "Statistical Analysis"
             priority := "medium"
             message := "Strong " ++ p.2.strength ++ " correlation detected between variables"
             actions := ["Create scatter plots to visualize relationship",
                         "Consider regression analysis",
                         "Investigate causal relationships"] }
    else Option.none) ++
  analysis.outliers.filterMap (fun p =>
    if 5 < p.2.percentage then
      some { category := "Outlier Management"
             priority := "medium"
             message := toFixed1 p.2.percentage ++ "% outliers detected in " ++ columnKey p.1
             actions := ["Investigate outlier causes",
                         "Consider robust statistical methods",
                         "Implement outlier detection formulas"] }
    else Option.none) ++
  analysis.trends.filterMap (fun p =>
    if jlt (num (1 / 10)) (jabs p.2.linear.slope) then
      some { category := "Trend Analysis"
             priority := "high"
             message := "Significant " ++ p.2.linear.direction ++ " trend in " ++ columnKey p.1
             actions := ["Create trend line charts",
                         "Implement forecasting formulas",
                         "Monitor trend sustainability"] }
    else Option.none)

mutual

/-- `DataAnalyzer.performDeepAnalysis(selectedData)` with an explicit
recursion-depth budget: the source builds the report and fills its
`recommendations` field by calling `generateRecommendations` on the same
dataset. `none` means the budget was exhausted before a value could be
returned. -/
def performDeepAnalysisFuel : ℕ → SelectedData → Option AnalysisRec
  | 0, _ => Option.none
  | fuel + 1, d =>
    (generateRecommendationsFuel fuel d).map (fun recs =>
      { basicStats := getBasicStats d
        statisticalSummary := calculateStatistics d
        dataQuality := assessDataQuality d
        patterns := detectPatterns d
        correlations := calculateCorrelations d
        outliers := detectOutliers d
        trends := analyzeTrends d
        recommendations := recs })

/-- `DataAnalyzer.generateRecommendations(selectedData)` with an explicit
recursion-depth budget: the source recomputes the whole deep analysis of
the same dataset and threshold-tests it. -/
def generateRecommendationsFuel : ℕ → SelectedData → Option (List Recommendation)
  | 0, _ => Option.none
  | fuel + 1, d => (performDeepAnalysisFuel fuel d).map recommendationsFrom

end

end DataAnalyzer

namespace Predictions

open JNum

/-- `calculateSlope(x, y)` from the predictions route:
`(n·Σxy - Σx·Σy) / (n·Σx² - (Σx)²)` with `n = x.length`, carried out in
IEEE style. -/
def calculateSlope (x y : List ℚ) : JNum :=
  let n := x.length
  let sumX := sumQ x
  let sumY := sumQ y
  let sumXY := sumQ (List.zipWith (fun a b => a * b) x y)
  let sumX2 := sumQ (x.map (fun xi => xi * xi))
  jdiv (num ((n : ℚ) * sumXY - sumX * sumY)) (num ((n : ℚ) * sumX2 - sumX * sumX))

/-- `calculateIntercept(x, y, slope)`: `meanY - slope * meanX`. -/
def calculateIntercept (x y : List ℚ) (slope : JNum) : JNum :=
  let meanX := jdiv (num (sumQ x)) (num x.length)
  let meanY := jdiv (num (sumQ y)) (num y.length)
  jsub meanY (jmul slope meanX)

/-- `calculateMSE(x, y, slope, intercept)`: mean of the squared residuals
of the fitted line over the observed points (division by `y.length`). -/
def calculateMSE (x y : List ℚ) (slope intercept : JNum) : JNum :=
  let predictions := x.map (fun xi => jadd (jmul slope (num xi)) intercept)
  let squaredErrors := List.zipWith (fun yi pi => jpow (jsub (num yi) pi) 2) y predictions
  jdiv (jsum squaredErrors) (num y.length)

/-- One confidence-band entry pushed by `generateTrendPredictions`. -/
structure BandRec where
  lower : JNum
  upper : JNum
deriving DecidableEq

/-- The `trend` part of the prediction result. -/
structure TrendInfoRec where
  slope : JNum
  intercept : JNum
  direction : String
  strength : JNum
deriving DecidableEq

/-- The result of `generateTrendPredictions`. -/
structure TrendPredictionsRec where
  values : List JNum
  confidenceBand : List BandRec
  trend : TrendInfoRec
deriving DecidableEq

/-- `generateTrendPredictions(data, horizon, confidence)`: throws on fewer
than two observations; otherwise fits a line over positions `1..n`, and
for `i = 1..horizon` pushes the point estimate `slope·(n+i) + intercept`
together with the band at ±1.96·sqrt(MSE). The loop pushes the prediction
and its band entry together; they are modelled as two equally-indexed
lists. -/
def generateTrendPredictions (values : List ℚ) (horizon : ℕ) :
    Except String TrendPredictionsRec :=
  let n := values.length
  if n < 2 then Except.error "Insufficient data for trend prediction"
  else
    let x := (List.range n).map (fun i : ℕ => (i : ℚ) + 1)
    let y := values
    let slope := calculateSlope x y
    let intercept := calculateIntercept x y slope
    let preds := (List.range horizon).map (fun j : ℕ =>
      jadd (jmul slope (num ((n : ℚ) + ((j : ℚ) + 1)))) intercept)
    let band := (List.range horizon).map (fun j : ℕ =>
      let prediction := jadd (jmul slope (num ((n : ℚ) + ((j : ℚ) + 1)))) intercept
      let errorTerm := jsqrt (calculateMSE x y slope intercept)
      let margin := jmul (num (196 / 100)) errorTerm
      { lower := jsub prediction margin, upper := jadd prediction margin : BandRec })
    Except.ok
      { values := preds
        confidenceBand := band
        trend :=
          { slope := slope
            intercept := intercept
            direction := if jlt (num 0) slope then ("increasing") else ("decreasing")
            strength := jabs slope } }

end Predictions

namespace WhatIf

/-- `WhatIfAnalysis.findNumericColumns(selectedData)`: with more than one
row, the labels `Column A`, `Column B`, ... of the numeric cells of row 1
(65 is the character code of A). -/
def findNumericColumns (d : SelectedData) : List String :=
  match d.values with
  | _ :: dataRow :: _ =>
    ((dataRow.enum.filter (fun p => p.2.isNum)).map (fun p =>
      "Column " ++ String.singleton (Char.ofNat (65 + p.1))))
  | _ => []

/-- One per-column modification of a scenario. -/
structure ModificationRec where
  column : String
  change : String
  formula : String
  rationale : String
deriving DecidableEq

/-- One scenario record of `WhatIfAnalysis`. -/
structure ScenarioRec where
  name : String
  description : String
  assumptions : List String
  modifications : List ModificationRec
  expectedOutcome : String
  riskLevel : String
  probability : String
deriving DecidableEq

/-- `WhatIfAnalysis.createOptimisticScenario(selectedData)`. -/
def createOptimisticScenario (d : SelectedData) : ScenarioRec :=
  { name := "Optimistic Scenario"
    description := "Best-case projections with positive growth assumptions"
    assumptions := ["15-25% growth in key metrics",
                    "Improved operational efficiency",
                    "Market expansion opportunities"]
    modifications := (findNumericColumns d).map (fun col =>
      { column := col
        change := "+20%"
        formula := "=ORIGINAL_VALUE * 1.2"
        rationale := "Optimistic growth projection" })
    expectedOutcome := "Significant improvement in overall performance"
    riskLevel := "Low"
    probability := "25%" }

/-- `WhatIfAnalysis.createPessimisticScenario(selectedData)`. -/
def createPessimisticScenario (d : SelectedData) : ScenarioRec :=
  { name := "Pessimistic Scenario"
    description := "Worst-case projections with conservative assumptions"
    assumptions := ["10-15% decline in key metrics",
                    "Economic downturn impact",
                    "Increased operational costs"]
    modifications := (findNumericColumns d).map (fun col =>
      { column := col
        change := "-15%"
        formula := "=ORIGINAL_VALUE * 0.85"
        rationale := "Conservative downturn projection" })
    expectedOutcome := "Challenging performance requiring mitigation strategies"
    riskLevel := "High"
    probability := "15%" }

/-- `WhatIfAnalysis.createRealisticScenario(selectedData)`. -/
def createRealisticScenario (d : SelectedData) : ScenarioRec :=
  { name := "Realistic Scenario"
    description := "Most likely projections based on current trends"
    assumptions := ["5-8% steady growth",
                    "Stable market conditions",
                    "Incremental improvements"]
    modifications := (findNumericColumns d).map (fun col =>
      { column := col
        change := "+6%"
        formula := "=ORIGINAL_VALUE * 1.06"
        rationale := "Realistic growth based on historical trends" })
    expectedOutcome := "Steady, sustainable growth"
    riskLevel := "Medium"
    probability := "60%" }

end WhatIf

/-- Numeric value of a list of decimal digit characters (verification
apparatus for reading the constants embedded in the source strings). -/
def digitsVal (cs : List Char) : Option ℕ :=
  if cs ≠ [] ∧ cs.all Char.isDigit then
    some (cs.foldl (fun a c => a * 10 + (c.toNat - 48)) 0)
  else Option.none

/-- Value of a decimal literal such as `1.2` (verification apparatus). -/
def decimalValue (s : String) : Option ℚ :=
  match s.toList.splitOn '.' with
  | [intPart] => (digitsVal intPart).map (fun a => (a : ℚ))
  | [intPart, fracPart] =>
    match digitsVal intPart, digitsVal fracPart with
    | some a, some b => some ((a : ℚ) + (b : ℚ) / (10 ^ fracPart.length : ℚ))
    | _, _ => Option.none
  | _ => Option.none

/-- Value denoted by a percentage string such as `25%` (verification
apparatus). -/
def percentValue (s : String) : Option ℚ :=
  if s.endsWith ("%") then (decimalValue (s.dropRight 1)).map (fun v => v / 100)
  else Option.none

/-- The multiplier carried by a scenario formula string
`=ORIGINAL_VALUE * <factor>` (verification apparatus). -/
def multiplierValue (s : String) : Option ℚ :=
  if s.startsWith ("=ORIGINAL_VALUE * ") then decimalValue (s.drop 18)
  else Option.none

namespace DataAnalyzer

/-- Exact value of `mean` on a sample of known length (proof apparatus). -/
def meanQ (d : List ℚ) : ℚ := sumQ d / d.length

/-- Exact value of `variance` on a sample with at least two points (proof
apparatus). -/
def varQ (d : List ℚ) : ℚ :=
  sumQ (d.map (fun x => (x - meanQ d) ^ 2)) / ((d.length : ℚ) - 1)

end DataAnalyzer

namespace Predictions

/-- The fit positions 1..n used by the trend forecast (spec side). -/
def specPositions (n : ℕ) : List ℚ := (List.range n).map (fun i : ℕ => (i : ℚ) + 1)

/-- The OLS slope of the spec over positions 1..n, as an exact rational:
`(n·Σxy - Σx·Σy) / (n·Σx² - (Σx)²)`. -/
def specSlope (ys : List ℚ) : ℚ :=
  let n := ys.length
  let xs := specPositions n
  ((n : ℚ) * sumQ (List.zipWith (fun a b => a * b) xs ys) - sumQ xs * sumQ ys) /
    ((n : ℚ) * sumQ (xs.map (fun xi => xi * xi)) - sumQ xs * sumQ xs)

/-- The OLS intercept of the spec, `meanY - slope·meanX`, exact. -/
def specIntercept (ys : List ℚ) : ℚ :=
  sumQ ys / (ys.length : ℚ) -
    specSlope ys * (sumQ (specPositions ys.length) / (ys.length : ℚ))

/-- The mean squared residual of the fitted line over the observed
points, exact (spec side). -/
def specMSE (ys : List ℚ) : ℚ :=
  sumQ (List.zipWith (fun yi xi => (yi - (specSlope ys * xi + specIntercept ys)) ^ 2)
    ys (specPositions ys.length)) / (ys.length : ℚ)

end Predictions

open JNum

/-- Adding NaN on the left gives NaN. -/
theorem jadd_nan_left (x : JNum) : jadd JNum.nan x = JNum.nan := by
  cases x <;> rfl

/-- Adding NaN on the right gives NaN. -/
theorem jadd_nan_right (x : JNum) : jadd x JNum.nan = JNum.nan := by
  cases x <;> rfl

/-- A fold of IEEE additions started at NaN stays NaN. -/
theorem foldl_jadd_nan (l : List JNum) : l.foldl jadd JNum.nan = JNum.nan := by
  induction l with
  | nil => rfl
  | cons x t ih => simpa [jadd_nan_left] using ih

/-- A nonempty sum all of whose terms are NaN is NaN. -/
theorem jsum_all_nan (l : List JNum) (hne : l ≠ []) (h : ∀ y ∈ l, y = JNum.nan) :
    jsum l = JNum.nan := by
  cases l with
  | nil => exact absurd rfl hne
  | cons x t =>
    have hx : x = JNum.nan := h x (by simp)
    simp only [jsum, List.foldl_cons, hx, jadd_nan_right]
    exact foldl_jadd_nan t

/-- Finite IEEE sums are exact: folding boxed rationals equals boxing the
rational fold. -/
theorem foldl_jadd_num (l : List ℚ) (a : ℚ) :
    (l.map JNum.num).foldl jadd (JNum.num a) = JNum.num (l.foldl (· + ·) a) := by
  induction l generalizing a with
  | nil => rfl
  | cons x t ih => simpa [jadd] using ih (a + x)

/-- `jsum` of boxed rationals is the boxed exact sum. -/
theorem jsum_map_num (l : List ℚ) : jsum (l.map JNum.num) = JNum.num (sumQ l) :=
  foldl_jadd_num l 0

/-- Finite IEEE subtraction is exact. -/
theorem jsub_num (a b : ℚ) : jsub (JNum.num a) (JNum.num b) = JNum.num (a - b) := by
  simp [jsub, jneg, jadd, sub_eq_add_neg]

/-- Finite IEEE powers are exact. -/
theorem jpow_num (q : ℚ) (k : ℕ) : jpow (JNum.num q) k = JNum.num (q ^ k) := by
  induction k with
  | zero => rfl
  | succ k ih => simp [jpow, ih, jmul, pow_succ, mul_comm]

/-- Division of finite values by a nonzero finite value is exact. -/
theorem jdiv_num (a b : ℚ) (hb : b ≠ 0) :
    jdiv (JNum.num a) (JNum.num b) = JNum.num (a / b) := by
  simp [jdiv, hb]

/-- Division of a positive finite value by zero gives +infinity. -/
theorem jdiv_pos_zero (a : ℚ) (ha : 0 < a) :
    jdiv (JNum.num a) (JNum.num 0) = JNum.inf := by
  simp [jdiv, ha, ne_of_gt ha]

/-- `sumQ` is `List.sum`. -/
theorem sumQ_eq_sum (l : List ℚ) : sumQ l = l.sum := by
  rw [List.sum_eq_foldl]; rfl

/-- A sum of nonnegative rationals is nonnegative. -/
theorem sumQ_nonneg (l : List ℚ) (h : ∀ x ∈ l, 0 ≤ x) : 0 ≤ sumQ l := by
  rw [sumQ_eq_sum]; exact List.sum_nonneg h

/-- A vanishing sum of squared deviations forces every element to the
common value. -/
theorem sumQ_sq_eq_zero (l : List ℚ) (μ : ℚ)
    (h : sumQ (l.map (fun x => (x - μ) ^ 2)) = 0) : ∀ x ∈ l, x = μ := by
  intro x hx
  rw [sumQ_eq_sum] at h
  have hnn : ∀ y ∈ l.map (fun x => (x - μ) ^ 2), 0 ≤ y := by
    intro y hy
    obtain ⟨z, _, rfl⟩ := List.mem_map.mp hy
    positivity
  have hz : (x - μ) ^ 2 = 0 := by
    have hmem : (x - μ) ^ 2 ∈ l.map (fun x => (x - μ) ^ 2) :=
      List.mem_map.mpr ⟨x, hx, rfl⟩
    have hle := List.single_le_sum hnn _ hmem
    have hge := hnn _ hmem
    rw [h] at hle
    linarith
  have := pow_eq_zero_iff (n := 2) (by norm_num) |>.mp hz
  linarith [sub_eq_zero.mp this]

/-- Multiplying NaN on the right gives NaN. -/
theorem jmul_nan_right (x : JNum) : jmul x JNum.nan = JNum.nan := by
  cases x <;> rfl

/-- Multiplying NaN on the left gives NaN. -/
theorem jmul_nan_left (x : JNum) : jmul JNum.nan x = JNum.nan := by
  cases x <;> rfl

/-- Dividing by NaN gives NaN. -/
theorem jdiv_nan_right (x : JNum) : jdiv x JNum.nan = JNum.nan := by
  cases x <;> rfl

/-- Subtracting from NaN gives NaN. -/
theorem jsub_nan_left (x : JNum) : jsub JNum.nan x = JNum.nan := by
  cases x <;> rfl

/-- A positive power of NaN is NaN. -/
theorem jpow_nan (k : ℕ) : jpow JNum.nan (k + 1) = JNum.nan := by
  simp [jpow, jmul_nan_left]

/-- Every element of a nonempty fold by `max` bounds the fold from below. -/
theorem le_foldl_max (l : List ℕ) (a : ℕ) :
    a ≤ l.foldl max a ∧ ∀ x ∈ l, x ≤ l.foldl max a := by
  induction l generalizing a with
  | nil => simp
  | cons y t ih =>
    refine ⟨?_, ?_⟩
    · exact le_trans (le_max_left a y) (ih (max a y)).1
    · intro x hx
      rcases List.mem_cons.mp hx with rfl | hx
      · exact le_trans (le_max_right a x) (ih (max a x)).1
      · exact (ih (max a y)).2 x hx

/-- `natSqrtL` of a positive number is positive. -/
theorem natSqrtL_pos (n : ℕ) (h : 0 < n) : 0 < natSqrtL n := by
  have h1 : (1 : ℕ) ∈ (List.range (n + 1)).filter (fun k => k * k ≤ n) := by
    rw [List.mem_filter]
    constructor
    · exact List.mem_range.mpr (by omega)
    · simpa using h
  have := (le_foldl_max ((List.range (n + 1)).filter (fun k => k * k ≤ n)) 0).2 1 h1
  exact lt_of_lt_of_le Nat.zero_lt_one (by simpa [natSqrtL] using this)

/-- `ratSqrt` of a positive rational is positive. -/
theorem ratSqrt_pos (q : ℚ) (h : 0 < q) : 0 < ratSqrt q := by
  unfold ratSqrt
  rw [Rat.mkRat_eq_div]
  apply div_pos
  · have hn : 0 < q.num := Rat.num_pos.mpr h
    have : 0 < q.num.toNat := by omega
    exact_mod_cast natSqrtL_pos _ this
  · exact_mod_cast natSqrtL_pos _ q.den_pos

/-- `ratSqrt 0 = 0`. -/
theorem ratSqrt_zero : ratSqrt 0 = 0 := by with_unfolding_all decide

/-- A nonnegative rational with vanishing `ratSqrt` is zero. -/
theorem eq_zero_of_ratSqrt_eq_zero (q : ℚ) (hq : 0 ≤ q) (h : ratSqrt q = 0) : q = 0 := by
  by_contra hne
  have : 0 < q := lt_of_le_of_ne hq (Ne.symm hne)
  exact absurd h (ne_of_gt (ratSqrt_pos q this))

namespace DataAnalyzer

/-- On a nonempty sample the IEEE mean is the exact rational mean. -/
theorem mean_num (d : List ℚ) (h : d ≠ []) : mean d = JNum.num (meanQ d) := by
  have hlen : (d.length : ℚ) ≠ 0 := by
    simpa using List.length_pos.mpr h |>.ne'
  simp [mean, meanQ, sum, jdiv_num _ _ hlen]

/-- On a sample with at least two points the IEEE variance is the exact
rational variance. -/
theorem variance_num (d : List ℚ) (h : 2 ≤ d.length) :
    variance d = JNum.num (varQ d) := by
  have hne : d ≠ [] := by
    intro hc; rw [hc] at h; simp at h
  have hden : ((d.length : ℚ) - 1) ≠ 0 := by
    have : (2 : ℚ) ≤ (d.length : ℚ) := by exact_mod_cast h
    linarith
  have hmap : d.map (fun x => jpow (jsub (JNum.num x) (mean d)) 2) =
      (d.map (fun x => (x - meanQ d) ^ 2)).map JNum.num := by
    rw [mean_num d hne, List.map_map]
    apply List.map_congr_left
    intro x _
    simp [jsub_num, jpow_num]
  rw [variance, hmap, jsum_map_num, jdiv_num _ _ hden]
  rfl

/-- The sum of squared deviations is nonnegative. -/
theorem sq_dev_nonneg (d : List ℚ) (μ : ℚ) :
    0 ≤ sumQ (d.map (fun x => (x - μ) ^ 2)) := by
  apply sumQ_nonneg
  intro x hx
  obtain ⟨z, _, rfl⟩ := List.mem_map.mp hx
  positivity

/-- The exact variance is nonnegative on samples with at least two points. -/
theorem varQ_nonneg (d : List ℚ) (h : 2 ≤ d.length) : 0 ≤ varQ d := by
  have hden : (0 : ℚ) < (d.length : ℚ) - 1 := by
    have : (2 : ℚ) ≤ (d.length : ℚ) := by exact_mod_cast h
    linarith
  exact div_nonneg (sq_dev_nonneg d (meanQ d)) (le_of_lt hden)

/-- On a sample with at least two points the IEEE standard deviation is
the boxed `ratSqrt` of the exact variance. -/
theorem stdDev_num (d : List ℚ) (h : 2 ≤ d.length) :
    standardDeviation d = JNum.num (ratSqrt (varQ d)) := by
  rw [standardDeviation, variance_num d h, jsqrt, if_neg (not_lt.mpr (varQ_nonneg d h))]

/-- On a sample with at least two points, zero standard deviation is
exactly zero variance. -/
theorem stdDev_eq_zero_iff (d : List ℚ) (h : 2 ≤ d.length) :
    standardDeviation d = JNum.num 0 ↔ varQ d = 0 := by
  rw [stdDev_num d h]
  constructor
  · intro hz
    have : ratSqrt (varQ d) = 0 := by injection hz
    exact eq_zero_of_ratSqrt_eq_zero _ (varQ_nonneg d h) this
  · intro hz
    rw [hz, ratSqrt_zero]

/-- Zero exact variance forces all sample values to the mean. -/
theorem varQ_zero_all_eq (d : List ℚ) (h : 2 ≤ d.length) (hv : varQ d = 0) :
    ∀ x ∈ d, x = meanQ d := by
  have hden : ((d.length : ℚ) - 1) ≠ 0 := by
    have : (2 : ℚ) ≤ (d.length : ℚ) := by exact_mod_cast h
    linarith
  have hs : sumQ (d.map (fun x => (x - meanQ d) ^ 2)) = 0 := by
    have := hv
    rw [varQ, div_eq_zero_iff] at this
    rcases this with hs | hc
    · exact hs
    · exact absurd hc hden
  exact sumQ_sq_eq_zero d (meanQ d) hs

/-- An even power of a nonzero rational is positive. -/
theorem pow4_pos (x : ℚ) (hx : x ≠ 0) : 0 < x ^ 4 := by
  have h2 : 0 < x ^ 2 := by
    rcases lt_or_gt_of_ne hx with h | h <;> nlinarith
  nlinarith [h2]

/-- When the exact variance vanishes (on two or more points), the
skewness is NaN: every standardised deviation is the 0/0 division. -/
theorem skew_nan_of_varQ_zero (d : List ℚ) (h : 2 ≤ d.length) (hv : varQ d = 0) :
    skewness d = JNum.nan := by
  have hne : d ≠ [] := by intro hc; rw [hc] at h; simp at h
  have hall := varQ_zero_all_eq d h hv
  have hdiv00 : jdiv (JNum.num 0) (JNum.num 0) = JNum.nan := by simp [jdiv]
  have hterm : ∀ x ∈ d,
      jpow (jdiv (jsub (JNum.num x) (mean d)) (standardDeviation d)) 3 = JNum.nan := by
    intro x hx
    rw [mean_num d hne, hall x hx, jsub_num, sub_self, stdDev_num d h, hv, ratSqrt_zero,
      hdiv00]
    exact jpow_nan 2
  have hsum : jsum (d.map (fun x =>
      jpow (jdiv (jsub (JNum.num x) (mean d)) (standardDeviation d)) 3)) = JNum.nan := by
    apply jsum_all_nan
    · simpa using hne
    · intro y hy
      obtain ⟨x, hx, rfl⟩ := List.mem_map.mp hy
      exact hterm x hx
  simp only [skewness]
  rw [hsum, jmul_nan_right]

/-- When the exact variance vanishes (on two or more points), the
kurtosis is NaN for the same reason. -/
theorem kurt_nan_of_varQ_zero (d : List ℚ) (h : 2 ≤ d.length) (hv : varQ d = 0) :
    kurtosis d = JNum.nan := by
  have hne : d ≠ [] := by intro hc; rw [hc] at h; simp at h
  have hall := varQ_zero_all_eq d h hv
  have hdiv00 : jdiv (JNum.num 0) (JNum.num 0) = JNum.nan := by simp [jdiv]
  have hterm : ∀ x ∈ d,
      jpow (jdiv (jsub (JNum.num x) (mean d)) (standardDeviation d)) 4 = JNum.nan := by
    intro x hx
    rw [mean_num d hne, hall x hx, jsub_num, sub_self, stdDev_num d h, hv, ratSqrt_zero,
      hdiv00]
    exact jpow_nan 3
  have hsum : jsum (d.map (fun x =>
      jpow (jdiv (jsub (JNum.num x) (mean d)) (standardDeviation d)) 4)) = JNum.nan := by
    apply jsum_all_nan
    · simpa using hne
    · intro y hy
      obtain ⟨x, hx, rfl⟩ := List.mem_map.mp hy
      exact hterm x hx
  simp only [kurtosis]
  rw [hsum, jmul_nan_right, jsub_nan_left]

/-- Skewness of a single observation is NaN (its variance is 0/0). -/
theorem skewness_singleton (a : ℚ) : skewness [a] = JNum.nan := by
  have hmean : mean [a] = JNum.num a := by
    rw [mean_num [a] (by simp)]
    norm_num [meanQ, sumQ]
  have hvar : variance [a] = JNum.nan := by
    simp only [variance, hmean]
    rw [List.map_cons, List.map_nil, jsub_num, sub_self, jpow_num]
    norm_num [jsum, jadd, jdiv]
  have hstd : standardDeviation [a] = JNum.nan := by
    rw [standardDeviation, hvar]; rfl
  have hterm : jpow (jdiv (jsub (JNum.num a) (mean [a])) (standardDeviation [a])) 3 =
      JNum.nan := by
    rw [hmean, hstd, jsub_num, jdiv_nan_right]
    exact jpow_nan 2
  simp only [skewness]
  rw [List.map_cons, List.map_nil, hterm]
  have : jsum [JNum.nan] = JNum.nan := by
    apply jsum_all_nan <;> simp
  rw [this, jmul_nan_right]

/-- Kurtosis of a single observation is NaN. -/
theorem kurtosis_singleton (a : ℚ) : kurtosis [a] = JNum.nan := by
  have hmean : mean [a] = JNum.num a := by
    rw [mean_num [a] (by simp)]
    norm_num [meanQ, sumQ]
  have hvar : variance [a] = JNum.nan := by
    simp only [variance, hmean]
    rw [List.map_cons, List.map_nil, jsub_num, sub_self, jpow_num]
    norm_num [jsum, jadd, jdiv]
  have hstd : standardDeviation [a] = JNum.nan := by
    rw [standardDeviation, hvar]; rfl
  have hterm : jpow (jdiv (jsub (JNum.num a) (mean [a])) (standardDeviation [a])) 4 =
      JNum.nan := by
    rw [hmean, hstd, jsub_num, jdiv_nan_right]
    exact jpow_nan 3
  simp only [kurtosis]
  rw [List.map_cons, List.map_nil, hterm]
  have : jsum [JNum.nan] = JNum.nan := by
    apply jsum_all_nan <;> simp
  rw [this, jmul_nan_right, jsub_nan_left]

/-- Skewness of a two-point sample is NaN: with zero variance the terms
are 0/0; otherwise the two standardised cubes cancel exactly and the
Bessel factor is 2/0 = +infinity, so the result is infinity times zero. -/
theorem skewness_pair (a b : ℚ) : skewness [a, b] = JNum.nan := by
  by_cases hv : varQ [a, b] = 0
  · exact skew_nan_of_varQ_zero [a, b] (by norm_num) hv
  · have h2 : (2 : ℕ) ≤ ([a, b] : List ℚ).length := by norm_num
    have hvpos : 0 < varQ [a, b] := lt_of_le_of_ne (varQ_nonneg _ h2) (Ne.symm hv)
    have hσpos : 0 < ratSqrt (varQ [a, b]) := ratSqrt_pos _ hvpos
    have hσne : ratSqrt (varQ [a, b]) ≠ 0 := ne_of_gt hσpos
    have hterm : ∀ x : ℚ,
        jpow (jdiv (jsub (JNum.num x) (mean [a, b])) (standardDeviation [a, b])) 3 =
          JNum.num (((x - meanQ [a, b]) / ratSqrt (varQ [a, b])) ^ 3) := by
      intro x
      rw [mean_num _ (by simp), stdDev_num _ h2, jsub_num, jdiv_num _ _ hσne, jpow_num]
    have hμval : meanQ [a, b] = (0 + a + b) / 2 := by
      norm_num [meanQ, sumQ]
    have hcancel : sumQ [((a - meanQ [a, b]) / ratSqrt (varQ [a, b])) ^ 3,
        ((b - meanQ [a, b]) / ratSqrt (varQ [a, b])) ^ 3] = 0 := by
      show (0 : ℚ) + _ + _ = 0
      rw [hμval]
      field_simp
      ring
    simp only [skewness]
    rw [List.map_cons, List.map_cons, List.map_nil, hterm a, hterm b]
    have hsum : jsum [JNum.num (((a - meanQ [a, b]) / ratSqrt (varQ [a, b])) ^ 3),
        JNum.num (((b - meanQ [a, b]) / ratSqrt (varQ [a, b])) ^ 3)] = JNum.num 0 := by
      rw [show [JNum.num (((a - meanQ [a, b]) / ratSqrt (varQ [a, b])) ^ 3),
          JNum.num (((b - meanQ [a, b]) / ratSqrt (varQ [a, b])) ^ 3)] =
          ([((a - meanQ [a, b]) / ratSqrt (varQ [a, b])) ^ 3,
            ((b - meanQ [a, b]) / ratSqrt (varQ [a, b])) ^ 3].map JNum.num) from rfl,
        jsum_map_num, hcancel]
    rw [hsum]
    norm_num [jdiv, jmul]

/-- Kurtosis of a two-point sample is NaN: with zero variance the terms
are 0/0; otherwise both factors of the bias-corrected formula are
divisions by zero giving +infinity, and infinity minus infinity is NaN. -/
theorem kurtosis_pair (a b : ℚ) : kurtosis [a, b] = JNum.nan := by
  by_cases hv : varQ [a, b] = 0
  · exact kurt_nan_of_varQ_zero [a, b] (by norm_num) hv
  · have h2 : (2 : ℕ) ≤ ([a, b] : List ℚ).length := by norm_num
    have hvpos : 0 < varQ [a, b] := lt_of_le_of_ne (varQ_nonneg _ h2) (Ne.symm hv)
    have hσpos : 0 < ratSqrt (varQ [a, b]) := ratSqrt_pos _ hvpos
    have hσne : ratSqrt (varQ [a, b]) ≠ 0 := ne_of_gt hσpos
    have hterm : ∀ x : ℚ,
        jpow (jdiv (jsub (JNum.num x) (mean [a, b])) (standardDeviation [a, b])) 4 =
          JNum.num (((x - meanQ [a, b]) / ratSqrt (varQ [a, b])) ^ 4) := by
      intro x
      rw [mean_num _ (by simp), stdDev_num _ h2, jsub_num, jdiv_num _ _ hσne, jpow_num]
    have hvval : varQ [a, b] = (0 + (a - meanQ [a, b]) ^ 2 + (b - meanQ [a, b]) ^ 2) / 1 := by
      norm_num [varQ, sumQ]
    have hdev : (a - meanQ [a, b]) ^ 2 + (b - meanQ [a, b]) ^ 2 > 0 := by
      rw [hvval] at hvpos
      nlinarith [hvpos]
    have hquart : 0 < ((a - meanQ [a, b]) / ratSqrt (varQ [a, b])) ^ 4 +
        ((b - meanQ [a, b]) / ratSqrt (varQ [a, b])) ^ 4 := by
      have hcase : (a - meanQ [a, b]) ≠ 0 ∨ (b - meanQ [a, b]) ≠ 0 := by
        by_contra hc
        push_neg at hc
        rw [hc.1, hc.2] at hdev
        norm_num at hdev
      rcases hcase with hx | hx
      · have h1 : 0 < ((a - meanQ [a, b]) / ratSqrt (varQ [a, b])) ^ 4 :=
          pow4_pos _ (div_ne_zero hx hσne)
        have h4 : (0 : ℚ) ≤ ((b - meanQ [a, b]) / ratSqrt (varQ [a, b])) ^ 4 := by
          positivity
        linarith
      · have h1 : 0 < ((b - meanQ [a, b]) / ratSqrt (varQ [a, b])) ^ 4 :=
          pow4_pos _ (div_ne_zero hx hσne)
        have h4 : (0 : ℚ) ≤ ((a - meanQ [a, b]) / ratSqrt (varQ [a, b])) ^ 4 := by
          positivity
        linarith
    simp only [kurtosis]
    rw [List.map_cons, List.map_cons, List.map_nil, hterm a, hterm b]
    have hsum : jsum [JNum.num (((a - meanQ [a, b]) / ratSqrt (varQ [a, b])) ^ 4),
        JNum.num (((b - meanQ [a, b]) / ratSqrt (varQ [a, b])) ^ 4)] =
        JNum.num (0 + ((a - meanQ [a, b]) / ratSqrt (varQ [a, b])) ^ 4 +
          ((b - meanQ [a, b]) / ratSqrt (varQ [a, b])) ^ 4) := by
      rw [show [JNum.num (((a - meanQ [a, b]) / ratSqrt (varQ [a, b])) ^ 4),
          JNum.num (((b - meanQ [a, b]) / ratSqrt (varQ [a, b])) ^ 4)] =
          ([((a - meanQ [a, b]) / ratSqrt (varQ [a, b])) ^ 4,
            ((b - meanQ [a, b]) / ratSqrt (varQ [a, b])) ^ 4].map JNum.num) from rfl,
        jsum_map_num]
      rfl
    rw [hsum]
    norm_num [jdiv, jmul, jsub, jadd, jneg, hquart, ne_of_gt hquart]

/-- Kurtosis of a three-point sample is NaN: with zero variance the terms
are 0/0; otherwise the factor `n(n+1)/((n-1)(n-2)(n-3))` is 12/0 and the
correction `3(n-1)²/((n-2)(n-3))` is 12/0, so the result is infinity
minus infinity. -/
theorem kurtosis_triple (a b c : ℚ) : kurtosis [a, b, c] = JNum.nan := by
  by_cases hv : varQ [a, b, c] = 0
  · exact kurt_nan_of_varQ_zero [a, b, c] (by norm_num) hv
  · have h2 : (2 : ℕ) ≤ ([a, b, c] : List ℚ).length := by norm_num
    have hvpos : 0 < varQ [a, b, c] := lt_of_le_of_ne (varQ_nonneg _ h2) (Ne.symm hv)
    have hσpos : 0 < ratSqrt (varQ [a, b, c]) := ratSqrt_pos _ hvpos
    have hσne : ratSqrt (varQ [a, b, c]) ≠ 0 := ne_of_gt hσpos
    have hterm : ∀ x : ℚ,
        jpow (jdiv (jsub (JNum.num x) (mean [a, b, c])) (standardDeviation [a, b, c])) 4 =
          JNum.num (((x - meanQ [a, b, c]) / ratSqrt (varQ [a, b, c])) ^ 4) := by
      intro x
      rw [mean_num _ (by simp), stdDev_num _ h2, jsub_num, jdiv_num _ _ hσne, jpow_num]
    have hvval : varQ [a, b, c] = (0 + (a - meanQ [a, b, c]) ^ 2 +
        (b - meanQ [a, b, c]) ^ 2 + (c - meanQ [a, b, c]) ^ 2) / 2 := by
      norm_num [varQ, sumQ]
    have hdev : (a - meanQ [a, b, c]) ^ 2 + (b - meanQ [a, b, c]) ^ 2 +
        (c - meanQ [a, b, c]) ^ 2 > 0 := by
      rw [hvval] at hvpos
      nlinarith [hvpos]
    have hquart : 0 < ((a - meanQ [a, b, c]) / ratSqrt (varQ [a, b, c])) ^ 4 +
        ((b - meanQ [a, b, c]) / ratSqrt (varQ [a, b, c])) ^ 4 +
        ((c - meanQ [a, b, c]) / ratSqrt (varQ [a, b, c])) ^ 4 := by
      have hcase : (a - meanQ [a, b, c]) ≠ 0 ∨ (b - meanQ [a, b, c]) ≠ 0 ∨
          (c - meanQ [a, b, c]) ≠ 0 := by
        by_contra hc
        push_neg at hc
        rw [hc.1, hc.2.1, hc.2.2] at hdev
        norm_num at hdev
      have hna : (0 : ℚ) ≤ ((a - meanQ [a, b, c]) / ratSqrt (varQ [a, b, c])) ^ 4 := by
        positivity
      have hnb : (0 : ℚ) ≤ ((b - meanQ [a, b, c]) / ratSqrt (varQ [a, b, c])) ^ 4 := by
        positivity
      have hnc : (0 : ℚ) ≤ ((c - meanQ [a, b, c]) / ratSqrt (varQ [a, b, c])) ^ 4 := by
        positivity
      rcases hcase with hx | hx | hx
      · have h1 := pow4_pos _ (div_ne_zero hx hσne)
        linarith [h1]
      · have h1 := pow4_pos _ (div_ne_zero hx hσne)
        linarith [h1]
      · have h1 := pow4_pos _ (div_ne_zero hx hσne)
        linarith [h1]
    simp only [kurtosis]
    rw [List.map_cons, List.map_cons, List.map_cons, List.map_nil, hterm a, hterm b,
      hterm c]
    have hsum : jsum [JNum.num (((a - meanQ [a, b, c]) / ratSqrt (varQ [a, b, c])) ^ 4),
        JNum.num (((b - meanQ [a, b, c]) / ratSqrt (varQ [a, b, c])) ^ 4),
        JNum.num (((c - meanQ [a, b, c]) / ratSqrt (varQ [a, b, c])) ^ 4)] =
        JNum.num (0 + ((a - meanQ [a, b, c]) / ratSqrt (varQ [a, b, c])) ^ 4 +
          ((b - meanQ [a, b, c]) / ratSqrt (varQ [a, b, c])) ^ 4 +
          ((c - meanQ [a, b, c]) / ratSqrt (varQ [a, b, c])) ^ 4) := by
      rw [show [JNum.num (((a - meanQ [a, b, c]) / ratSqrt (varQ [a, b, c])) ^ 4),
          JNum.num (((b - meanQ [a, b, c]) / ratSqrt (varQ [a, b, c])) ^ 4),
          JNum.num (((c - meanQ [a, b, c]) / ratSqrt (varQ [a, b, c])) ^ 4)] =
          ([((a - meanQ [a, b, c]) / ratSqrt (varQ [a, b, c])) ^ 4,
            ((b - meanQ [a, b, c]) / ratSqrt (varQ [a, b, c])) ^ 4,
            ((c - meanQ [a, b, c]) / ratSqrt (varQ [a, b, c])) ^ 4].map JNum.num) from rfl,
        jsum_map_num]
      rfl
    rw [hsum]
    norm_num [jdiv, jmul, jsub, jadd, jneg, hquart, ne_of_gt hquart]

/-- The skewness field is NaN whenever the sample standard deviation is
zero or there are fewer than three observations (nonempty samples). -/
theorem skewness_undefined (d : List ℚ) (hne : d ≠ [])
    (h : standardDeviation d = JNum.num 0 ∨ d.length < 3) : skewness d = JNum.nan := by
  match d, hne with
  | [a], _ => exact skewness_singleton a
  | [a, b], _ => exact skewness_pair a b
  | a :: b :: c :: t, _ =>
    have h2 : 2 ≤ (a :: b :: c :: t).length := by simp
    rcases h with hs | hn
    · exact skew_nan_of_varQ_zero _ h2 ((stdDev_eq_zero_iff _ h2).mp hs)
    · exact absurd hn (by simp)

/-- The kurtosis field is NaN whenever the sample standard deviation is
zero or there are fewer than four observations (nonempty samples). -/
theorem kurtosis_undefined (d : List ℚ) (hne : d ≠ [])
    (h : standardDeviation d = JNum.num 0 ∨ d.length < 4) : kurtosis d = JNum.nan := by
  match d, hne with
  | [a], _ => exact kurtosis_singleton a
  | [a, b], _ => exact kurtosis_pair a b
  | [a, b, c], _ => exact kurtosis_triple a b c
  | a :: b :: c :: e :: t, _ =>
    have h2 : 2 ≤ (a :: b :: c :: e :: t).length := by simp
    rcases h with hs | hn
    · exact kurt_nan_of_varQ_zero _ h2 ((stdDev_eq_zero_iff _ h2).mp hs)
    · exact absurd hn (by simp)

/-- Destructing a member of the statistics map: it is the record of a
nonempty filtered column sample. -/
theorem mem_calculateStatistics (d : SelectedData) (i : ℕ) (r : StatRec)
    (h : (i, r) ∈ calculateStatistics d) :
    numericColumnData d.values i ≠ [] ∧ r = statRec (numericColumnData d.values i) := by
  rw [calculateStatistics, List.mem_filterMap] at h
  obtain ⟨a, _, hfa⟩ := h
  by_cases hlen : (numericColumnData d.values a).length > 0
  · rw [if_pos hlen] at hfa
    have h1 : a = i ∧ statRec (numericColumnData d.values a) = r := by
      have := Option.some.inj hfa
      exact ⟨congrArg Prod.fst this, congrArg Prod.snd this⟩
    obtain ⟨rfl, hrec⟩ := h1
    exact ⟨List.ne_nil_of_length_pos hlen, hrec.symm⟩
  · rw [if_neg hlen] at hfa
    exact absurd hfa (by simp)

end DataAnalyzer

/-- C3: for every numeric column record in the Descriptive Statistics
output, the skewness field holds no defined numeric value (it is NaN)
whenever the standard deviation is zero or the sample size is below 3,
and the kurtosis field is NaN whenever the standard deviation is zero or
the sample size is below 4. -/
theorem claim3_skew_kurt_undefined (d : SelectedData) (i : ℕ)
    (r : DataAnalyzer.StatRec) (hmem : (i, r) ∈ DataAnalyzer.calculateStatistics d) :
    ((r.standardDeviation = JNum.num 0 ∨ r.count < 3) → r.skewness = JNum.nan) ∧
    ((r.standardDeviation = JNum.num 0 ∨ r.count < 4) → r.kurtosis = JNum.nan) := by
  obtain ⟨hne, hrec⟩ := DataAnalyzer.mem_calculateStatistics d i r hmem
  subst hrec
  exact ⟨fun h => DataAnalyzer.skewness_undefined _ hne h,
         fun h => DataAnalyzer.kurtosis_undefined _ hne h⟩

/-- Witness for C3: the column sample [1, 1] (standard deviation zero)
appears in the statistics of a concrete dataset and has NaN skewness and
kurtosis. -/
theorem claim3_witness :
    ((0, DataAnalyzer.statRec [1, 1]) ∈
        DataAnalyzer.calculateStatistics ⟨[[Cell.str "h"], [Cell.num 1], [Cell.num 1]]⟩ ∧
      (DataAnalyzer.statRec [1, 1]).standardDeviation = JNum.num 0) ∧
    (DataAnalyzer.statRec [1, 1]).skewness = JNum.nan ∧
    (DataAnalyzer.statRec [1, 1]).kurtosis = JNum.nan := by
  have hmem : (0, DataAnalyzer.statRec [1, 1]) ∈
      DataAnalyzer.calculateStatistics ⟨[[Cell.str "h"], [Cell.num 1], [Cell.num 1]]⟩ := by
    with_unfolding_all decide
  have hstd : (DataAnalyzer.statRec [1, 1]).standardDeviation = JNum.num 0 := by
    with_unfolding_all decide
  have hmain := claim3_skew_kurt_undefined ⟨[[Cell.str "h"], [Cell.num 1], [Cell.num 1]]⟩
    0 (DataAnalyzer.statRec [1, 1]) hmem
  exact ⟨⟨hmem, hstd⟩, hmain.1 (Or.inl hstd), hmain.2 (Or.inl hstd)⟩

namespace DataAnalyzer

/-- Sorting preserves length. -/
theorem sortQ_length (L : List ℚ) : (sortQ L).length = L.length :=
  List.length_mergeSort L

/-- The odd-length half of the percentile/median agreement. -/
theorem percentile_median_odd (s : List ℚ) (k : ℕ) (hlen : s.length = 2 * k + 1) :
    percentile s 50 =
      match s.get? (s.length / 2) with
      | some v => JNum.num v
      | Option.none => JNum.nan := by
  have hidx : (50 : ℚ) / 100 * ((s.length : ℚ) - 1) = (k : ℚ) := by
    rw [hlen]
    push_cast
    ring
  have hmid : s.length / 2 = k := by omega
  have hk : k < s.length := by omega
  obtain ⟨v, hv⟩ : ∃ v, s.get? k = some v := ⟨s.get ⟨k, hk⟩, List.get?_eq_get hk⟩
  simp only [percentile, hidx, hmid]
  rw [if_neg (not_lt.mpr (by positivity : (0 : ℚ) ≤ (k : ℚ)))]
  rw [if_pos (Rat.den_natCast k)]
  have hnum : ((k : ℚ)).num.toNat = k := by
    rw [Rat.num_natCast]
    exact Int.toNat_natCast k
  rw [hnum, hv]

/-- The even-length half of the percentile/median agreement: index k - 1/2
interpolates halfway between the two middle order statistics. -/
theorem percentile_median_even (s : List ℚ) (k : ℕ) (hk1 : 1 ≤ k)
    (hlen : s.length = 2 * k) :
    percentile s 50 =
      match s.get? (s.length / 2 - 1), s.get? (s.length / 2) with
      | some a, some b => JNum.num ((a + b) / 2)
      | _, _ => JNum.nan := by
  have hk1Q : (1 : ℚ) ≤ (k : ℚ) := by exact_mod_cast hk1
  have hidx : (50 : ℚ) / 100 * ((s.length : ℚ) - 1) = (k : ℚ) - 1 / 2 := by
    rw [hlen]
    push_cast
    ring
  have hmid : s.length / 2 = k := by omega
  have hka : k - 1 < s.length := by omega
  have hkb : k < s.length := by omega
  obtain ⟨a, ha⟩ : ∃ v, s.get? (k - 1) = some v :=
    ⟨s.get ⟨k - 1, hka⟩, List.get?_eq_get hka⟩
  obtain ⟨b, hb⟩ : ∃ v, s.get? k = some v := ⟨s.get ⟨k, hkb⟩, List.get?_eq_get hkb⟩
  have hneg : ¬ ((k : ℚ) - 1 / 2 < 0) := by
    intro hc
    linarith
  have hfloor : ⌊(k : ℚ) - 1 / 2⌋ = (k : ℤ) - 1 := by
    rw [Int.floor_eq_iff]
    constructor
    · push_cast
      linarith
    · push_cast
      linarith
  have hceil : ⌈(k : ℚ) - 1 / 2⌉ = (k : ℤ) := by
    rw [Int.ceil_eq_iff]
    constructor
    · push_cast
      linarith
    · push_cast
      linarith
  have hden : ¬ (((k : ℚ) - 1 / 2).den = 1) := by
    intro hden1
    have hnum := (Rat.den_eq_one_iff _).mp hden1
    have h2 : (2 : ℚ) * (((k : ℚ) - 1 / 2).num : ℚ) = 2 * (k : ℚ) - 1 := by
      rw [hnum]
      ring
    have h3 : (2 : ℤ) * ((k : ℚ) - 1 / 2).num = 2 * (k : ℤ) - 1 := by exact_mod_cast h2
    omega
  have htonat1 : ((k : ℤ) - 1).toNat = k - 1 := by omega
  have htonat2 : ((k : ℤ)).toNat = k := by omega
  simp only [percentile, hidx, hmid]
  rw [if_neg hneg, if_neg hden, hfloor, hceil, htonat1, htonat2, ha, hb]
  have hval : a + (b - a) * (((k : ℚ) - 1 / 2) - (((k : ℤ) - 1 : ℤ) : ℚ)) = (a + b) / 2 := by
    push_cast
    ring
  show JNum.num (a + (b - a) * (((k : ℚ) - 1 / 2) - (((k : ℤ) - 1 : ℤ) : ℚ))) =
    JNum.num ((a + b) / 2)
  rw [hval]

end DataAnalyzer

/-- C8: the 50th percentile by linear interpolation equals the median, for
every nonempty numeric list, even or odd length. -/
theorem claim8_percentile50_eq_median (L : List ℚ) (h : L ≠ []) :
    DataAnalyzer.percentile (DataAnalyzer.sortQ L) 50 = DataAnalyzer.median L := by
  have hpos : 0 < L.length := List.length_pos.mpr h
  rcases Nat.even_or_odd L.length with he | ho
  · obtain ⟨k, hk⟩ := he
    have hk1 : 1 ≤ k := by omega
    have hlen : (DataAnalyzer.sortQ L).length = 2 * k := by
      rw [DataAnalyzer.sortQ_length]
      omega
    rw [DataAnalyzer.percentile_median_even (DataAnalyzer.sortQ L) k hk1 hlen]
    simp only [DataAnalyzer.median]
    rw [if_neg (by rw [hlen] ; omega)]
  · obtain ⟨k, hk⟩ := ho
    have hlen : (DataAnalyzer.sortQ L).length = 2 * k + 1 := by
      rw [DataAnalyzer.sortQ_length]
      omega
    rw [DataAnalyzer.percentile_median_odd (DataAnalyzer.sortQ L) k hlen]
    simp only [DataAnalyzer.median]
    rw [if_pos (by rw [hlen] ; omega)]

/-- Witness for C8: on the odd-length list [3, 1, 2] and the even-length
list [4, 1, 3, 2] the interpolated 50th percentile is the median. -/
theorem claim8_witness :
    (([3, 1, 2] : List ℚ) ≠ [] ∧
      DataAnalyzer.percentile (DataAnalyzer.sortQ [3, 1, 2]) 50 =
        DataAnalyzer.median [3, 1, 2] ∧
      DataAnalyzer.median [3, 1, 2] = JNum.num 2) ∧
    (([4, 1, 3, 2] : List ℚ) ≠ [] ∧
      DataAnalyzer.percentile (DataAnalyzer.sortQ [4, 1, 3, 2]) 50 =
        DataAnalyzer.median [4, 1, 3, 2] ∧
      DataAnalyzer.median [4, 1, 3, 2] = JNum.num (5 / 2)) := by
  refine ⟨⟨by simp, claim8_percentile50_eq_median [3, 1, 2] (by simp), ?_⟩,
          ⟨by simp, claim8_percentile50_eq_median [4, 1, 3, 2] (by simp), ?_⟩⟩
  · with_unfolding_all decide
  · with_unfolding_all decide

/-- Counterexample for C2: on the empty dataset the completeness score is
not 1 (the source divides 0/0 with no guard). -/
theorem claim2_counterexample :
    (DataAnalyzer.assessDataQuality ⟨[]⟩).completeness.score ≠ JNum.num 1 := by
  with_unfolding_all decide

/-- C2 as amended: on the empty dataset the completeness and uniqueness
scores are NaN (1 - 0/0); the assessor is a total function, so it still
never raises. -/
theorem claim2_amended :
    (DataAnalyzer.assessDataQuality ⟨[]⟩).completeness.score = JNum.nan ∧
    (DataAnalyzer.assessDataQuality ⟨[]⟩).uniqueness.score = JNum.nan := by
  constructor
  · with_unfolding_all decide
  · with_unfolding_all decide

/-- C6: on the column sample [1,...,9,100] (10 ≥ 4 samples, via a one
column dataset), the outlier detector flags 100 as the only extreme
outlier and flags nothing as mild, with the interpolated quartiles. -/
theorem claim6_outlier_fences :
    ([1, 2, 3, 4, 5, 6, 7, 8, 9, 100] : List ℚ).length > 3 ∧
    DataAnalyzer.detectOutliers
        ⟨[Cell.str "v"] ::
          ([1, 2, 3, 4, 5, 6, 7, 8, 9, 100] : List ℚ).map (fun q => [Cell.num q])⟩ =
      [(0, DataAnalyzer.outlierRec [1, 2, 3, 4, 5, 6, 7, 8, 9, 100])] ∧
    (DataAnalyzer.outlierRec [1, 2, 3, 4, 5, 6, 7, 8, 9, 100]).extreme.values = [100] ∧
    (DataAnalyzer.outlierRec [1, 2, 3, 4, 5, 6, 7, 8, 9, 100]).extreme.count = 1 ∧
    (DataAnalyzer.outlierRec [1, 2, 3, 4, 5, 6, 7, 8, 9, 100]).mild.values = [] ∧
    (DataAnalyzer.outlierRec [1, 2, 3, 4, 5, 6, 7, 8, 9, 100]).mild.count = 0 := by
  refine ⟨by norm_num, ?_, ?_, ?_, ?_, ?_⟩ <;> with_unfolding_all decide

/-- C10: with fewer than two rows the numeric-column probe finds nothing,
so statistics, correlations, outliers and trends all come back empty. -/
theorem claim10_short_grid_empty (d : SelectedData) (h : d.values.length < 2) :
    DataAnalyzer.getNumericColumns d.values = [] ∧
    DataAnalyzer.calculateStatistics d = [] ∧
    DataAnalyzer.calculateCorrelations d = [] ∧
    DataAnalyzer.detectOutliers d = [] ∧
    DataAnalyzer.analyzeTrends d = [] := by
  have hcols : DataAnalyzer.getNumericColumns d.values = [] := by
    match hv : d.values with
    | [] => rfl
    | [r] => rfl
    | r1 :: r2 :: t =>
      rw [hv] at h
      simp at h
      omega
  refine ⟨hcols, ?_, ?_, ?_, ?_⟩
  · rw [DataAnalyzer.calculateStatistics, hcols]
    rfl
  · rw [DataAnalyzer.calculateCorrelations, hcols]
    rfl
  · rw [DataAnalyzer.detectOutliers, hcols]
    rfl
  · rw [DataAnalyzer.analyzeTrends, hcols]
    rfl

/-- Witness for C10: a one-row grid consisting entirely of numeric cells
still yields no numeric columns and empty result maps. -/
theorem claim10_witness :
    ((⟨[[Cell.num 1, Cell.num 2]]⟩ : SelectedData).values.length < 2 ∧
      ([[Cell.num 1, Cell.num 2]] : List (List Cell)).all (fun row => row.all Cell.isNum)) ∧
    (DataAnalyzer.getNumericColumns [[Cell.num 1, Cell.num 2]] = [] ∧
      DataAnalyzer.calculateStatistics ⟨[[Cell.num 1, Cell.num 2]]⟩ = [] ∧
      DataAnalyzer.calculateCorrelations ⟨[[Cell.num 1, Cell.num 2]]⟩ = [] ∧
      DataAnalyzer.detectOutliers ⟨[[Cell.num 1, Cell.num 2]]⟩ = [] ∧
      DataAnalyzer.analyzeTrends ⟨[[Cell.num 1, Cell.num 2]]⟩ = []) :=
  ⟨⟨by decide, by decide⟩,
    claim10_short_grid_empty ⟨[[Cell.num 1, Cell.num 2]]⟩ (by decide)⟩

/-- C7: each generated scenario applies one fixed multiplier to every
numeric column - 1.2 optimistic, 0.85 pessimistic, 1.06 realistic - and
carries the probability tags 25%, 15% and 60%, which denote weights
summing to 1. -/
theorem claim7_scenario_constants (d : SelectedData) :
    ((WhatIf.createOptimisticScenario d).modifications =
        (WhatIf.findNumericColumns d).map (fun col =>
          { column := col, change := "+20%", formula := "=ORIGINAL_VALUE * 1.2",
            rationale := "Optimistic growth projection" }) ∧
      multiplierValue ("=ORIGINAL_VALUE * 1.2") = some (12 / 10) ∧
      (WhatIf.createOptimisticScenario d).probability = "25%" ∧
      percentValue ("25%") = some (25 / 100)) ∧
    ((WhatIf.createPessimisticScenario d).modifications =
        (WhatIf.findNumericColumns d).map (fun col =>
          { column := col, change := "-15%", formula := "=ORIGINAL_VALUE * 0.85",
            rationale := "Conservative downturn projection" }) ∧
      multiplierValue ("=ORIGINAL_VALUE * 0.85") = some (85 / 100) ∧
      (WhatIf.createPessimisticScenario d).probability = "15%" ∧
      percentValue ("15%") = some (15 / 100)) ∧
    ((WhatIf.createRealisticScenario d).modifications =
        (WhatIf.findNumericColumns d).map (fun col =>
          { column := col, change := "+6%", formula := "=ORIGINAL_VALUE * 1.06",
            rationale := "Realistic growth based on historical trends" }) ∧
      multiplierValue ("=ORIGINAL_VALUE * 1.06") = some (106 / 100) ∧
      (WhatIf.createRealisticScenario d).probability = "60%" ∧
      percentValue ("60%") = some (60 / 100)) ∧
    (25 / 100 + 15 / 100 + 60 / 100 : ℚ) = 1 := by
  refine ⟨⟨rfl, ?_, rfl, ?_⟩, ⟨rfl, ?_, rfl, ?_⟩, ⟨rfl, ?_, rfl, ?_⟩, by norm_num⟩ <;>
    with_unfolding_all decide

/-- Counterexample for C5: a division by zero inside the volatility
computation (the sample variance of a single return divides by 0) yields
NaN, not 0: the series [1, 2] produces exactly one percentage return. -/
theorem claim5_counterexample :
    DataAnalyzer.calculateVolatility [1, 2] = JNum.nan ∧
    DataAnalyzer.calculateVolatility [1, 2] ≠ JNum.num 0 := by
  constructor
  · with_unfolding_all decide
  · with_unfolding_all decide

/-- C5 as amended: the Pearson correlation returns 0 whenever its
denominator is 0 (pairing its inputs up to the shorter length), and the
volatility returns 0 whenever no percentage return can be formed (all
denominators zero); but when exactly one return is formed the variance
division by count-1 = 0 makes the volatility NaN instead. -/
theorem claim5_amended (x y data : List ℚ) :
    (DataAnalyzer.pearsonDenominator x y = JNum.num 0 →
      DataAnalyzer.pearsonCorrelation x y = JNum.num 0) ∧
    (DataAnalyzer.returnsList data = [] →
      DataAnalyzer.calculateVolatility data = JNum.num 0) := by
  constructor
  · intro hden
    simp only [DataAnalyzer.pearsonCorrelation]
    by_cases hn : min x.length y.length < 2
    · rw [if_pos hn]
    · rw [if_neg hn, if_pos hden]
  · intro hret
    simp only [DataAnalyzer.calculateVolatility]
    by_cases hlen : data.length < 2
    · rw [if_pos hlen]
    · rw [if_neg hlen, hret]
      with_unfolding_all decide

/-- Witness for C5: a constant series gives a zero Pearson denominator and
the correlation 0; an all-zero series admits no percentage return and the
volatility 0. -/
theorem claim5_witness :
    (DataAnalyzer.pearsonDenominator [1, 1] [2, 3] = JNum.num 0 ∧
      DataAnalyzer.returnsList [0, 0, 0] = []) ∧
    DataAnalyzer.pearsonCorrelation [1, 1] [2, 3] = JNum.num 0 ∧
    DataAnalyzer.calculateVolatility [0, 0, 0] = JNum.num 0 := by
  have h1 : DataAnalyzer.pearsonDenominator [1, 1] [2, 3] = JNum.num 0 := by
    with_unfolding_all decide
  have h2 : DataAnalyzer.returnsList [0, 0, 0] = [] := by
    with_unfolding_all decide
  exact ⟨⟨h1, h2⟩, (claim5_amended [1, 1] [2, 3] [0, 0, 0]).1 h1,
    (claim5_amended [1, 1] [2, 3] [0, 0, 0]).2 h2⟩

/-- Counterexample for C4: the four-point series [0, 3, 3, 3] has
n = 4 < 2*3+1, where the claim demands momentum 0, yet the source computes
mean([3,3,3]) - mean([0]) = 3. -/
theorem claim4_counterexample :
    DataAnalyzer.calculateMomentum [0, 3, 3, 3] 3 = JNum.num 3 ∧
    DataAnalyzer.calculateMomentum [0, 3, 3, 3] 3 ≠ JNum.num 0 := by
  constructor
  · with_unfolding_all decide
  · with_unfolding_all decide

/-- C4 as amended: with the default window 3, momentum is 0 exactly when
n < 4 (the guard is `n < window + 1`, not `n < 2*window + 1`); for n ≥ 4
it is the mean of the last 3 values minus the mean of the window of
min(3, n-3) values immediately before them - equal-length windows from
n ≥ 6 on. -/
theorem claim4_amended (data : List ℚ) :
    (data.length < 4 → DataAnalyzer.calculateMomentum data 3 = JNum.num 0) ∧
    (4 ≤ data.length →
      DataAnalyzer.calculateMomentum data 3 =
        jsub (DataAnalyzer.mean (data.drop (data.length - 3)))
          (DataAnalyzer.mean
            ((data.drop (data.length - 6)).take ((data.length - 3) - (data.length - 6))))) := by
  constructor
  · intro h
    rw [DataAnalyzer.calculateMomentum, if_pos (by omega)]
  · intro h
    rw [DataAnalyzer.calculateMomentum, if_neg (by omega)]
    have hrecent : DataAnalyzer.jsSlice data (-((3 : ℕ) : ℤ)) (data.length : ℤ) =
        data.drop (data.length - 3) := by
      simp only [DataAnalyzer.jsSlice]
      rw [if_pos (by omega : (-((3 : ℕ) : ℤ)) < 0),
        if_neg (by omega : ¬ ((data.length : ℤ) < 0))]
      rw [min_self]
      have hs : (max ((data.length : ℤ) + -((3 : ℕ) : ℤ)) 0).toNat = data.length - 3 := by
        omega
      have he : ((data.length : ℤ)).toNat = data.length := by omega
      rw [hs, he]
      have hdl : (data.drop (data.length - 3)).length = data.length - (data.length - 3) :=
        List.length_drop _ _
      rw [← hdl]
      exact List.take_length _
    have hearlier : DataAnalyzer.jsSlice data (-(2 * ((3 : ℕ) : ℤ))) (-((3 : ℕ) : ℤ)) =
        (data.drop (data.length - 6)).take ((data.length - 3) - (data.length - 6)) := by
      simp only [DataAnalyzer.jsSlice]
      rw [if_pos (by omega : (-(2 * ((3 : ℕ) : ℤ))) < 0),
        if_pos (by omega : (-((3 : ℕ) : ℤ)) < 0)]
      have hs : (max ((data.length : ℤ) + -(2 * ((3 : ℕ) : ℤ))) 0).toNat =
          data.length - 6 := by omega
      have he : (max ((data.length : ℤ) + -((3 : ℕ) : ℤ)) 0).toNat = data.length - 3 := by
        omega
      rw [hs, he]
    rw [hrecent, hearlier]

/-- C1: the orchestrator never terminates - `performDeepAnalysis` fills
its recommendations field by calling `generateRecommendations`, which
recomputes `performDeepAnalysis` on the same dataset, with no base case:
no recursion-depth budget suffices for any dataset. -/
theorem claim1_deep_analysis_diverges (fuel : ℕ) (d : SelectedData) :
    DataAnalyzer.performDeepAnalysisFuel fuel d = Option.none := by
  induction fuel using Nat.strong_induction_on generalizing d with
  | _ fuel ih =>
    match fuel with
    | 0 => rfl
    | 1 =>
      simp [DataAnalyzer.performDeepAnalysisFuel, DataAnalyzer.generateRecommendationsFuel]
    | f + 2 =>
      have hinner := ih f (by omega) d
      simp [DataAnalyzer.performDeepAnalysisFuel, DataAnalyzer.generateRecommendationsFuel,
        hinner]

/-- Witness for C4: [1, 2, 3] is below the real guard and yields 0;
[1, 2, 3, 4, 5, 6, 10] is long enough for two full windows. -/
theorem claim4_witness :
    (([1, 2, 3] : List ℚ).length < 4 ∧
      DataAnalyzer.calculateMomentum [1, 2, 3] 3 = JNum.num 0) ∧
    (4 ≤ ([1, 2, 3, 4, 5, 6, 10] : List ℚ).length ∧
      DataAnalyzer.calculateMomentum [1, 2, 3, 4, 5, 6, 10] 3 =
        jsub (DataAnalyzer.mean (([1, 2, 3, 4, 5, 6, 10] : List ℚ).drop 4))
          (DataAnalyzer.mean ((([1, 2, 3, 4, 5, 6, 10] : List ℚ).drop 1).take 3))) := by
  refine ⟨⟨by norm_num, (claim4_amended [1, 2, 3]).1 (by norm_num)⟩, ⟨by norm_num, ?_⟩⟩
  have h := (claim4_amended [1, 2, 3, 4, 5, 6, 10]).2 (by norm_num)
  simpa using h

namespace Predictions

/-- `specPositions` has length n. -/
theorem specPositions_length (n : ℕ) : (specPositions n).length = n := by
  simp [specPositions]

/-- `sumQ` distributes over append. -/
theorem sumQ_append (l1 l2 : List ℚ) : sumQ (l1 ++ l2) = sumQ l1 + sumQ l2 := by
  rw [sumQ_eq_sum, sumQ_eq_sum, sumQ_eq_sum, List.sum_append]

/-- Closed form of the sum of the positions 1..n. -/
theorem sumQ_specPositions (n : ℕ) : sumQ (specPositions n) = n * (n + 1) / 2 := by
  induction n with
  | zero => simp [specPositions, sumQ]
  | succ n ih =>
    rw [specPositions, List.range_succ, List.map_append, List.map_cons, List.map_nil,
      sumQ_append]
    rw [show ((List.range n).map (fun i : ℕ => (i : ℚ) + 1)) = specPositions n from rfl, ih]
    have hsing : sumQ [(n : ℚ) + 1] = (n : ℚ) + 1 := by
      simp [sumQ]
    rw [hsing]
    push_cast
    ring

/-- Closed form of the sum of the squared positions 1..n. -/
theorem sumQ_specPositions_sq (n : ℕ) :
    sumQ ((specPositions n).map (fun xi => xi * xi)) =
      n * (n + 1) * (2 * n + 1) / 6 := by
  induction n with
  | zero => simp [specPositions, sumQ]
  | succ n ih =>
    rw [specPositions, List.range_succ, List.map_append, List.map_cons, List.map_nil,
      List.map_append, sumQ_append]
    rw [show (((List.range n).map (fun i : ℕ => (i : ℚ) + 1)).map (fun xi => xi * xi)) =
      ((specPositions n).map (fun xi => xi * xi)) from rfl, ih]
    have hsing : sumQ (List.map (fun xi => xi * xi) [(n : ℚ) + 1]) =
        ((n : ℚ) + 1) * ((n : ℚ) + 1) := by
      simp [sumQ]
    rw [hsing]
    push_cast
    ring

/-- The OLS denominator `n·Σx² - (Σx)²` over positions 1..n is positive
for n ≥ 2 (it equals n²(n+1)(n-1)/12). -/
theorem specDenom_pos (n : ℕ) (h : 2 ≤ n) :
    0 < (n : ℚ) * sumQ ((specPositions n).map (fun xi => xi * xi)) -
      sumQ (specPositions n) * sumQ (specPositions n) := by
  rw [sumQ_specPositions, sumQ_specPositions_sq]
  have hn : (2 : ℚ) ≤ (n : ℚ) := by exact_mod_cast h
  have key : (n : ℚ) * ((n : ℚ) * ((n : ℚ) + 1) * (2 * (n : ℚ) + 1) / 6) -
      ((n : ℚ) * ((n : ℚ) + 1) / 2) * ((n : ℚ) * ((n : ℚ) + 1) / 2) =
      (n : ℚ) ^ 2 * ((n : ℚ) + 1) * ((n : ℚ) - 1) / 12 := by
    ring
  rw [key]
  have h1 : (0 : ℚ) < (n : ℚ) ^ 2 := by positivity
  have h2 : (0 : ℚ) < (n : ℚ) + 1 := by positivity
  have h3 : (0 : ℚ) < (n : ℚ) - 1 := by linarith
  positivity

/-- `sumQ` over a cons. -/
theorem sumQ_cons (a : ℚ) (l : List ℚ) : sumQ (a :: l) = a + sumQ l := by
  rw [sumQ_eq_sum, sumQ_eq_sum, List.sum_cons]

/-- A zip of pointwise-nonnegative terms sums to a nonnegative value. -/
theorem sumQ_zipWith_nonneg (f : ℚ → ℚ → ℚ) (hf : ∀ a b, 0 ≤ f a b)
    (l1 l2 : List ℚ) : 0 ≤ sumQ (List.zipWith f l1 l2) := by
  induction l1 generalizing l2 with
  | nil => simp [sumQ]
  | cons a t ih =>
    cases l2 with
    | nil => simp [sumQ]
    | cons b t2 =>
      rw [List.zipWith_cons_cons, sumQ_cons]
      have := ih t2
      have := hf a b
      linarith

/-- The route slope on the fit positions is the boxed exact OLS slope. -/
theorem slope_eq (ys : List ℚ) (h : 2 ≤ ys.length) :
    calculateSlope (specPositions ys.length) ys = JNum.num (specSlope ys) := by
  have hxlen : (specPositions ys.length).length = ys.length := specPositions_length _
  have hB := ne_of_gt (specDenom_pos ys.length h)
  simp only [calculateSlope, hxlen]
  rw [jdiv_num _ _ hB]
  rfl

/-- The route intercept on the fit positions is the boxed exact OLS
intercept. -/
theorem intercept_eq (ys : List ℚ) (h : 2 ≤ ys.length) :
    calculateIntercept (specPositions ys.length) ys (JNum.num (specSlope ys)) =
      JNum.num (specIntercept ys) := by
  have hxlen : (specPositions ys.length).length = ys.length := specPositions_length _
  have hn : ((ys.length : ℚ)) ≠ 0 := by
    have : 0 < ys.length := by omega
    simpa using this.ne'
  simp only [calculateIntercept, hxlen]
  rw [jdiv_num _ _ hn, jdiv_num _ _ hn]
  rw [show jmul (JNum.num (specSlope ys))
      (JNum.num (sumQ (specPositions ys.length) / (ys.length : ℚ))) =
      JNum.num (specSlope ys * (sumQ (specPositions ys.length) / (ys.length : ℚ))) from rfl]
  rw [jsub_num]
  rfl

/-- The route MSE on the fit positions is the boxed exact mean squared
residual. -/
theorem mse_eq (ys : List ℚ) (h : 2 ≤ ys.length) :
    calculateMSE (specPositions ys.length) ys (JNum.num (specSlope ys))
      (JNum.num (specIntercept ys)) = JNum.num (specMSE ys) := by
  have hn : ((ys.length : ℚ)) ≠ 0 := by
    have : 0 < ys.length := by omega
    simpa using this.ne'
  simp only [calculateMSE]
  have hpred : (specPositions ys.length).map (fun xi =>
      jadd (jmul (JNum.num (specSlope ys)) (JNum.num xi)) (JNum.num (specIntercept ys))) =
      (specPositions ys.length).map (fun xi =>
        JNum.num (specSlope ys * xi + specIntercept ys)) := by
    apply List.map_congr_left
    intro xi _
    rfl
  rw [hpred]
  rw [show (specPositions ys.length).map (fun xi =>
      JNum.num (specSlope ys * xi + specIntercept ys)) =
      ((specPositions ys.length).map (fun xi =>
        specSlope ys * xi + specIntercept ys)).map JNum.num from (List.map_map ..).symm]
  rw [List.zipWith_map_right]
  have hfun : (fun (yi : ℚ) (pi : ℚ) =>
      jpow (jsub (JNum.num yi) (JNum.num pi)) 2) = fun yi pi => JNum.num ((yi - pi) ^ 2) := by
    funext yi pi
    rw [jsub_num, jpow_num]
  rw [hfun]
  rw [show List.zipWith (fun (a b : ℚ) => JNum.num ((a - b) ^ 2)) ys
      ((specPositions ys.length).map (fun xi => specSlope ys * xi + specIntercept ys)) =
      (List.zipWith (fun (a b : ℚ) => (a - b) ^ 2) ys
        ((specPositions ys.length).map
          (fun xi => specSlope ys * xi + specIntercept ys))).map
        JNum.num from (List.map_zipWith ..).symm]
  rw [jsum_map_num, jdiv_num _ _ hn]
  rw [List.zipWith_map_right]
  rfl

/-- The exact mean squared residual is nonnegative. -/
theorem specMSE_nonneg (ys : List ℚ) : 0 ≤ specMSE ys := by
  apply div_nonneg
  · apply sumQ_zipWith_nonneg
    intro a b
    positivity
  · positivity

end Predictions

/-- C9: for n ≥ 2 observations and any horizon h ≥ 1 and 1 ≤ i ≤ h, the
trend forecast succeeds and returns prediction[i] = slope·(n+i) +
intercept for the exact OLS fit over the observed series, with the
symmetric confidence band prediction[i] ± 1.96·sqrt(MSE), MSE being the
mean squared residual of the fitted line over the n observed points. -/
theorem claim9_trend_forecast (ys : List ℚ) (hor i : ℕ)
    (hlen : 2 ≤ ys.length) (hi1 : 1 ≤ i) (hih : i ≤ hor) :
    ∃ r, Predictions.generateTrendPredictions ys hor = Except.ok r ∧
      r.values.get? (i - 1) =
        some (JNum.num (Predictions.specSlope ys * ((ys.length : ℚ) + (i : ℚ)) +
          Predictions.specIntercept ys)) ∧
      r.confidenceBand.get? (i - 1) = some
        { lower := JNum.num (Predictions.specSlope ys * ((ys.length : ℚ) + (i : ℚ)) +
            Predictions.specIntercept ys -
            196 / 100 * ratSqrt (Predictions.specMSE ys))
          upper := JNum.num (Predictions.specSlope ys * ((ys.length : ℚ) + (i : ℚ)) +
            Predictions.specIntercept ys +
            196 / 100 * ratSqrt (Predictions.specMSE ys)) } := by
  have hnot : ¬ (ys.length < 2) := not_lt.mpr hlen
  have hsqrt : jsqrt (JNum.num (Predictions.specMSE ys)) =
      JNum.num (ratSqrt (Predictions.specMSE ys)) := by
    simp only [jsqrt]
    rw [if_neg (not_lt.mpr (Predictions.specMSE_nonneg ys))]
  have hcast : ((i - 1 : ℕ) : ℚ) + 1 = (i : ℚ) := by
    rw [Nat.cast_sub hi1]
    push_cast
    ring
  have hr : (List.range hor).get? (i - 1) = some (i - 1) := by
    rw [List.get?_eq_getElem?]
    exact List.getElem?_range (by omega)
  simp only [Predictions.generateTrendPredictions]
  rw [if_neg hnot]
  rw [show (List.range ys.length).map (fun i : ℕ => (i : ℚ) + 1) =
      Predictions.specPositions ys.length from rfl]
  rw [Predictions.slope_eq ys hlen, Predictions.intercept_eq ys hlen,
    Predictions.mse_eq ys hlen]
  refine ⟨_, rfl, ?_, ?_⟩
  · rw [List.get?_map, hr]
    simp only [Option.map]
    rw [hcast]
    rfl
  · rw [List.get?_map, hr]
    simp only [Option.map]
    rw [hcast, hsqrt]
    simp only [jmul, jadd, jsub, jneg, sub_eq_add_neg]

/-- Witness for C9: for the series [1, 2] with horizon 1 at i = 1 the fit
is slope 1, intercept 0, MSE 0, and the forecast for position 3 is 3 with
a degenerate band. -/
theorem claim9_witness :
    (2 ≤ ([1, 2] : List ℚ).length ∧ (1 : ℕ) ≤ 1 ∧
      Predictions.specSlope [1, 2] = 1 ∧ Predictions.specIntercept [1, 2] = 0 ∧
      Predictions.specMSE [1, 2] = 0) ∧
    (∃ r, Predictions.generateTrendPredictions [1, 2] 1 = Except.ok r ∧
      r.values.get? (1 - 1) =
        some (JNum.num (Predictions.specSlope [1, 2] *
          ((([1, 2] : List ℚ).length : ℚ) + ((1 : ℕ) : ℚ)) +
          Predictions.specIntercept [1, 2])) ∧
      r.confidenceBand.get? (1 - 1) = some
        { lower := JNum.num (Predictions.specSlope [1, 2] *
            ((([1, 2] : List ℚ).length : ℚ) + ((1 : ℕ) : ℚ)) +
            Predictions.specIntercept [1, 2] -
            196 / 100 * ratSqrt (Predictions.specMSE [1, 2]))
          upper := JNum.num (Predictions.specSlope [1, 2] *
            ((([1, 2] : List ℚ).length : ℚ) + ((1 : ℕ) : ℚ)) +
            Predictions.specIntercept [1, 2] +
            196 / 100 * ratSqrt (Predictions.specMSE [1, 2])) }) := by
  refine ⟨⟨by norm_num, le_refl 1, ?_, ?_, ?_⟩,
    claim9_trend_forecast [1, 2] 1 1 (by norm_num) (le_refl 1) (le_refl 1)⟩
  · with_unfolding_all decide
  · with_unfolding_all decide
  · with_unfolding_all decide

end ExcelAI
